import Mathlib

/-!
Shallow embedding of `src/generator.rs` from the zram-generator repository.

The generator is a boot-time systemd unit generator.  Its effectful
operations (file writes, directory creation, symlink creation, one external
process probe, console logging) are modelled by explicit state passing over
a `World`: an association-list filesystem plus the observable environment
(the behaviour of the `systemd-detect-virt` probe, the number of times it
has been invoked, the path of the running executable as reported by
`env::current_exe`, and the console log).  Fallible operations return
`Except String α × World`: errors are `anyhow`-style message strings, and
the world at the moment of failure is kept (mutations performed before a
failure persist, as on a real filesystem).

Paths are modelled as lists of components (`Rust `PathBuf::join` becomes
list append); `Path::display` becomes joining the components with "/".
Symbolic links are stored entries holding their target text verbatim; the
model does not follow symlinks (none of the code under verification reads
through a link), so writing to a path whose entry is a symlink is modelled
as an error rather than as a write through the link.
-/

namespace ZramGen

/-- A filesystem path, as the list of its components
(`output_directory.join(name)` in the source becomes `out ++ [name]`). -/
abbrev FsPath := List String

/-- One filesystem entry: a directory, a regular file with its byte
contents, or a symbolic link storing its target text verbatim
(not canonicalized — stored as given to `symlink`). -/
inductive Entry : Type where
  | dir : Entry
  | file (contents : String) : Entry
  | symlinkEntry (target : String) : Entry
deriving DecidableEq, Repr

/-- The filesystem: an association list from paths to entries. -/
abbrev FsMap := List (FsPath × Entry)

/-- Look up the entry stored at a path. -/
def lookupPath : FsMap → FsPath → Option Entry
  | [], _ => none
  | (q, e) :: rest, p => if q = p then some e else lookupPath rest p

/-- Store an entry at a path, replacing in place any existing entry. -/
def setPath : FsMap → FsPath → Entry → FsMap
  | [], p, e => [(p, e)]
  | (q, e0) :: rest, p, e =>
      if q = p then (q, e) :: rest else (q, e0) :: setPath rest p e

/-- Outcome of attempting to run `systemd-detect-virt --container`:
either the process could not be spawned at all, or it ran and exited
with the given status code (`ExitStatus::success()` means code 0). -/
inductive ProbeOutcome : Type where
  | spawnFailure (msg : String) : ProbeOutcome
  | exited (code : Nat) : ProbeOutcome
deriving DecidableEq, Repr

/-- The world state threaded through the generator: the filesystem, the
behaviour of the container-detection facility, how many times that
facility has been invoked, what `env::current_exe()` reports (`none`
models its failure), and the console (stdout) log. -/
structure World : Type where
  fs : FsMap
  probe : ProbeOutcome
  probeCalls : Nat
  currentExe : Option String
  console : List String
deriving DecidableEq, Repr

/-- A device descriptor (`config::Device`).  The generation core reads only
`name` and `disksize`; the configuration-owned fields (compression
algorithm, streams, ...) are consumed elsewhere and are irrelevant here. -/
structure Device : Type where
  name : String
  disksize : Nat
deriving DecidableEq, Repr

/-- `Path::display`: join the components with "/". -/
def display (p : FsPath) : String := String.intercalate "/" p

/-- `Path::parent`: drop the last component; `none` when there is no
parent component at all. -/
def parentOf (p : FsPath) : Option FsPath :=
  match p with
  | [] => none
  | _ :: _ => some p.dropLast

/-- Whether a path denotes an existing directory: the filesystem root
(the empty path) always does, otherwise the stored entry must be `dir`. -/
def isDirAt (fs : FsMap) (p : FsPath) : Bool :=
  p = [] ∨ lookupPath fs p = some Entry.dir

/-- Append one line to the console log (`println!`). -/
def logLine (w : World) (s : String) : World :=
  { w with console := w.console ++ [s] }

/-- Sequencing of fallible stateful steps: Rust's `?` operator.  An error
aborts the continuation but keeps the world reached so far. -/
def bindE {α β : Type} (m : Except String α × World)
    (f : α → World → Except String β × World) : Except String β × World :=
  match m with
  | (Except.ok a, w) => f a w
  | (Except.error e, w) => (Except.error e, w)

/-- `with_context`: on failure, prepend a context message to the error. -/
def withContext {α : Type} (m : Except String α × World) (ctx : String) :
    Except String α × World :=
  match m with
  | (Except.ok a, w) => (Except.ok a, w)
  | (Except.error e, w) => (Except.error (ctx ++ ": " ++ e), w)

/-- Whether a result is a success. -/
def resultIsOk {α : Type} : Except String α → Bool
  | Except.ok _ => true
  | Except.error _ => false

/-- `std::fs::write`: create or truncate the regular file at `p` with
contents `c`.  Fails when `p` has no parent, when the parent is not an
existing directory, or when `p` itself is a directory; an existing symlink
at `p` is modelled as an error (the model does not follow links). -/
def writeFile (w : World) (p : FsPath) (c : String) :
    Except String Unit × World :=
  match parentOf p with
  | none => (Except.error "Is a directory (os error 21)", w)
  | some par =>
      if isDirAt w.fs par then
        match lookupPath w.fs p with
        | some Entry.dir => (Except.error "Is a directory (os error 21)", w)
        | some (Entry.symlinkEntry _) =>
            (Except.error "No such device or address (os error 6)", w)
        | _ => (Except.ok (), { w with fs := setPath w.fs p (Entry.file c) })
      else (Except.error "No such file or directory (os error 2)", w)

/-- `std::os::unix::fs::symlink(dst, src)`: create a symlink at `src`
whose stored target text is `dst`.  Fails with `EEXIST` when anything
already exists at `src`, and when the parent of `src` is missing. -/
def symlinkOsCall (w : World) (dst : String) (src : FsPath) :
    Except String Unit × World :=
  match lookupPath w.fs src with
  | some _ => (Except.error "File exists (os error 17)", w)
  | none =>
      match parentOf src with
      | none => (Except.error "File exists (os error 17)", w)
      | some par =>
          if isDirAt w.fs par then
            (Except.ok (),
             { w with fs := setPath w.fs src (Entry.symlinkEntry dst) })
          else (Except.error "No such file or directory (os error 2)", w)

/-- Recursion core of `fs::create_dir_all`: create each missing component
directory in turn; a component already present as a non-directory is an
error (directories created before the failing component persist). -/
def createDirAllGo (w : World) (done : FsPath) : List String →
    Except String Unit × World
  | [] => (Except.ok (), w)
  | c :: rest =>
      match lookupPath w.fs (done ++ [c]) with
      | some Entry.dir => createDirAllGo w (done ++ [c]) rest
      | some _ => (Except.error "File exists (os error 17)", w)
      | none =>
          createDirAllGo { w with fs := setPath w.fs (done ++ [c]) Entry.dir }
            (done ++ [c]) rest

/-- `std::fs::create_dir_all`: create all missing ancestor directories of
`p` and `p` itself. -/
def createDirAll (w : World) (p : FsPath) : Except String Unit × World :=
  createDirAllGo w [] p

/-- `fn make_parent(of: &Path)`: take the parent of `of` (error when there
is none) and `create_dir_all` it. -/
def make_parent (of : FsPath) (w : World) : Except String Unit × World :=
  match parentOf of with
  | none => (Except.error ("Couldn\x27t get parent of " ++ display of), w)
  | some par => createDirAll w par

/-- `fn make_symlink(dst: &str, src: &Path)`: ensure the parent of `src`
exists, then create the link; the failure context interpolates `dst`
(the target text) into the "at" slot and `src` (the link location) into
the "pointing to" slot, exactly as the source's `format!` does. -/
def make_symlink (dst : String) (src : FsPath) (w : World) :
    Except String Unit × World :=
  bindE (make_parent src w) (fun _ w1 =>
    withContext (symlinkOsCall w1 dst src)
      ("Failed to create symlink at " ++ dst ++ " (pointing to " ++
        display src ++ ")"))

/-- `fn virtualization_container()`: invoke
`systemd-detect-virt --container` and return `status.success()`; a spawn
failure becomes an error. -/
def virtualization_container (w : World) : Except String Bool × World :=
  let w1 := { w with probeCalls := w.probeCalls + 1 }
  match w.probe with
  | ProbeOutcome.spawnFailure e =>
      (Except.error ("systemd-detect-virt call failed: " ++ e), w1)
  | ProbeOutcome.exited code => (Except.ok (code == 0), w1)

/-- The text of the per-device swap unit written by `handle_device` (the
`format!` template of the source, with the device name spliced in; the
split into literal pieces is immaterial, only the resulting bytes count). -/
def swapUnitText (name : String) : String :=
  "# Automatically generated by zram-generator\n\n[Unit]\nDescription=Compressed swap on /dev/"
    ++ name ++ "\n"
    ++ "Requires=swap-create@" ++ name ++ ".service\nAfter=swap-create@"
    ++ name ++ ".service\n"
    ++ "\n[Swap]\n"
    ++ "What=/dev/" ++ name ++ "\n" ++ "Priority=100\n"

/-- The text of the `swap-create@.service` template written by
`make_service_template`, as a function of the running executable's path
(the `format!` template of the source; the split into literal pieces is
immaterial, only the resulting bytes count). -/
def serviceTemplateText (generator : String) : String :=
  "# Automatically generated by zram-generator\n\n[Unit]\nDescription=Create swap on /dev/%i\nWants=systemd-modules-load.service\nAfter=systemd-modules-load.service\nAfter=dev-%i.device\nDefaultDependencies=false\n\n[Service]\nType=oneshot\nRemainAfterExit=yes\n"
    ++ "ExecStartPre=-modprobe zram\n"
    ++ "ExecStart=" ++ generator ++ " --setup-device \x27%i\x27\n"

/-- `fn make_service_template(output_directory)`: resolve the running
executable's path (error when the environment cannot report it), render
the template, and write `swap-create@.service` into the output
directory. -/
def make_service_template (output_directory : FsPath) (w : World) :
    Except String Unit × World :=
  let service_path := output_directory ++ ["swap-create@.service"]
  match w.currentExe with
  | none => (Except.error "Couldn\x27t get path to generator executable", w)
  | some exe =>
      withContext (writeFile w service_path (serviceTemplateText exe))
        ("Failed to write a device service into " ++ display service_path)

/-- `fn handle_device(output_directory, device)`: log, write the swap unit
`dev-<name>.swap`, create the activation symlink
`swap.target.wants/dev-<name>.swap` → `../dev-<name>.swap`, return true. -/
def handle_device (output_directory : FsPath) (device : Device) (w : World) :
    Except String Bool × World :=
  let swap_name := "dev-" ++ device.name ++ ".swap"
  let w0 := logLine w
    ("Creating " ++ swap_name ++ " for /dev/" ++ device.name ++ " (" ++
      toString (device.disksize / 1024 / 1024) ++ "MB)")
  let swap_path := output_directory ++ [swap_name]
  bindE (withContext (writeFile w0 swap_path (swapUnitText device.name))
          ("Failed to write a swap service into " ++ display swap_path))
    (fun _ w1 =>
      let symlink_path := output_directory ++ ["swap.target.wants", swap_name]
      let target_path := "../" ++ swap_name
      bindE (make_symlink target_path symlink_path w1)
        (fun _ w2 => (Except.ok true, w2)))

/-- The device loop of `run_generator`:
`for dev in &devices { devices_made |= handle_device(&output_directory, dev)?; }`. -/
def handleDevices (output_directory : FsPath) : List Device → Bool → World →
    Except String Bool × World
  | [], acc, w => (Except.ok acc, w)
  | d :: rest, acc, w =>
      bindE (handle_device output_directory d w) (fun b w1 =>
        handleDevices output_directory rest (acc || b) w1)

/-- The path of the module-autoload directive file,
`Path::new(&root).join("run/modules-load.d/zram.conf")`. -/
def modulesLoadPath (root : FsPath) : FsPath :=
  root ++ ["run", "modules-load.d", "zram.conf"]

/-- `pub fn run_generator(root, devices, output_directory)`: early-exit on
an empty device list, early-exit when containerized, iterate the devices,
and when at least one device was made write the service template and the
module-autoload directive `zram\n`. -/
def run_generator (root : FsPath) (devices : List Device)
    (output_directory : FsPath) (w : World) : Except String Unit × World :=
  if devices.isEmpty then
    (Except.ok (), logLine w "No devices configured, exiting.")
  else
    bindE (virtualization_container w) (fun container w1 =>
      if container then
        (Except.ok (), logLine w1 "Running in a container, exiting.")
      else
        bindE (handleDevices output_directory devices false w1)
          (fun devices_made w2 =>
            if devices_made then
              bindE (make_service_template output_directory w2) (fun _ w3 =>
                let modules_load_path := modulesLoadPath root
                bindE (make_parent modules_load_path w3) (fun _ w4 =>
                  withContext (writeFile w4 modules_load_path "zram\n")
                    ("Failed to write configuration for loading a module at "
                      ++ display modules_load_path)))
            else (Except.ok (), w2)))

/-! ### Association-list filesystem lemmas -/

theorem lookup_setPath_self (fs : FsMap) (p : FsPath) (e : Entry) :
    lookupPath (setPath fs p e) p = some e := by
  induction fs with
  | nil => simp [setPath, lookupPath]
  | cons hd tl ih =>
      obtain ⟨q, e0⟩ := hd
      by_cases hq : q = p
      · simp [setPath, lookupPath, hq]
      · simp [setPath, lookupPath, hq, ih]

theorem lookup_setPath_ne (fs : FsMap) (p q : FsPath) (e : Entry)
    (h : q ≠ p) : lookupPath (setPath fs p e) q = lookupPath fs q := by
  induction fs with
  | nil => simp [setPath, lookupPath, Ne.symm h]
  | cons hd tl ih =>
      obtain ⟨r, e0⟩ := hd
      by_cases hr : r = p
      · subst hr
        have hrq : ¬r = q := fun h' => h h'.symm
        simp [setPath, lookupPath, hrq]
      · simp [setPath, lookupPath, hr, ih]

theorem setPath_eq_of_lookup (fs : FsMap) (p : FsPath) (e : Entry)
    (h : lookupPath fs p = some e) : setPath fs p e = fs := by
  induction fs with
  | nil => simp [lookupPath] at h
  | cons hd tl ih =>
      obtain ⟨q, e0⟩ := hd
      by_cases hq : q = p
      · subst hq
        simp [lookupPath] at h
        simp [setPath, h]
      · simp [lookupPath, hq] at h
        simp [setPath, hq, ih h]

/-! ### Path lemmas -/

theorem path_ne_of_last_ne (p q : FsPath) (a b : String) (h : a ≠ b) :
    p ++ [a] ≠ q ++ [b] := by
  intro heq
  have hl : (p ++ [a]).getLast? = (q ++ [b]).getLast? := by rw [heq]
  rw [List.getLast?_concat, List.getLast?_concat] at hl
  exact h (Option.some.inj hl)

theorem snoc_inj (p : FsPath) (a b : String) (h : p ++ [a] = p ++ [b]) :
    a = b := by
  have := List.append_cancel_left h
  simpa using this

theorem snoc_ne_snoc2 (p : FsPath) (a b c : String) :
    p ++ [a] ≠ p ++ [b, c] := by
  intro h
  have := congrArg List.length h
  simp at this

theorem parentOf_concat (p : FsPath) (a : String) :
    parentOf (p ++ [a]) = some p := by
  cases p with
  | nil => rfl
  | cons x xs =>
      show some (((x :: xs) ++ [a]).dropLast) = some (x :: xs)
      rw [List.dropLast_concat]

/-! ### String lemmas -/

theorem string_ne_of_head (s t : String) (a b : Char)
    (ha : s.data.head? = some a) (hb : t.data.head? = some b)
    (hab : a ≠ b) : s ≠ t := by
  intro h
  rw [h, hb] at ha
  exact hab (Option.some.inj ha).symm

/-- The swap unit file name `dev-<name>.swap` built by `handle_device`. -/
def devSwapName (n : String) : String := "dev-" ++ n ++ ".swap"

theorem devSwapName_head (n : String) :
    (devSwapName n).data.head? = some 'd' := by
  cases n; rfl

theorem swapUnitText_head (n : String) :
    (swapUnitText n).data.head? = some '#' := by
  cases n; rfl

theorem serviceTemplateText_head (e : String) :
    (serviceTemplateText e).data.head? = some '#' := by
  cases e; rfl

theorem devSwapName_ne_zram (n : String) : devSwapName n ≠ "zram.conf" :=
  string_ne_of_head _ _ 'd' 'z' (devSwapName_head n) rfl (by decide)

theorem devSwapName_ne_template (n : String) :
    devSwapName n ≠ "swap-create@.service" :=
  string_ne_of_head _ _ 'd' 's' (devSwapName_head n) rfl (by decide)

theorem devSwapName_ne_wants (n : String) :
    devSwapName n ≠ "swap.target.wants" :=
  string_ne_of_head _ _ 'd' 's' (devSwapName_head n) rfl (by decide)

theorem swapUnitText_ne_zramLine (n : String) : swapUnitText n ≠ "zram\n" :=
  string_ne_of_head _ _ '#' 'z' (swapUnitText_head n) rfl (by decide)

theorem string_ext (s t : String) (h : s.data = t.data) : s = t := by
  cases s; cases t; exact congrArg String.mk h

theorem string_append_assoc (a b c : String) :
    (a ++ b) ++ c = a ++ (b ++ c) := by
  cases a; cases b; cases c
  exact congrArg String.mk (List.append_assoc _ _ _)

theorem string_append_right_empty (s : String) : s ++ "" = s := by
  cases s
  exact congrArg String.mk (List.append_nil _)

set_option maxRecDepth 10000 in
/-- Sanity check: the swap-unit text rendered for `zram0`, byte for byte. -/
theorem swapUnitText_zram0 :
    swapUnitText "zram0"
      = "# Automatically generated by zram-generator\n\n[Unit]\nDescription=Compressed swap on /dev/zram0\nRequires=swap-create@zram0.service\nAfter=swap-create@zram0.service\n\n[Swap]\nWhat=/dev/zram0\nPriority=100\n" := by
  decide

set_option maxRecDepth 10000 in
/-- Sanity check: the service-template text rendered for a sample
executable path, byte for byte. -/
theorem serviceTemplateText_sample :
    serviceTemplateText "/usr/bin/zram-generator"
      = "# Automatically generated by zram-generator\n\n[Unit]\nDescription=Create swap on /dev/%i\nWants=systemd-modules-load.service\nAfter=systemd-modules-load.service\nAfter=dev-%i.device\nDefaultDependencies=false\n\n[Service]\nType=oneshot\nRemainAfterExit=yes\nExecStartPre=-modprobe zram\nExecStart=/usr/bin/zram-generator --setup-device \x27%i\x27\n" := by
  decide

theorem devSwapName_inj (n m : String) (h : devSwapName n = devSwapName m) :
    n = m := by
  cases n with
  | mk l =>
    cases m with
    | mk l' =>
      have h2 : ('d' :: 'e' :: 'v' :: '-' :: (l ++ ['.', 's', 'w', 'a', 'p']))
          = ('d' :: 'e' :: 'v' :: '-' :: (l' ++ ['.', 's', 'w', 'a', 'p'])) :=
        congrArg String.data h
      simp only [List.cons.injEq, true_and] at h2
      have h3 := List.append_cancel_right h2
      exact congrArg String.mk h3

/-! ### Primitive operation lemmas -/

theorem parentOf_eq_some (p q : FsPath) (h : parentOf p = some q) :
    q = p.dropLast ∧ p ≠ [] := by
  cases p with
  | nil => simp [parentOf] at h
  | cons x xs =>
      simp [parentOf] at h
      simp [h]

theorem writeFile_ok (w : World) (p : FsPath) (c : String) (u : Unit)
    (w' : World) (h : writeFile w p c = (Except.ok u, w')) :
    w' = { w with fs := setPath w.fs p (Entry.file c) }
    ∧ lookupPath w.fs p ≠ some Entry.dir
    ∧ (∀ t, lookupPath w.fs p ≠ some (Entry.symlinkEntry t))
    ∧ p ≠ [] ∧ isDirAt w.fs p.dropLast = true := by
  unfold writeFile at h
  split at h
  · simp at h
  next par hpar =>
    obtain ⟨hq, hne⟩ := parentOf_eq_some p par hpar
    subst hq
    split at h
    next hdir =>
      split at h
      · simp at h
      · simp at h
      next h1 h2 =>
        simp only [Prod.mk.injEq] at h
        refine ⟨h.2.symm, ?_, ?_, hne, hdir⟩
        · intro hcon; exact h1 hcon
        · intro t hcon; exact h2 t hcon
    · simp at h

theorem writeFile_err (w : World) (p : FsPath) (c : String) (e : String)
    (w' : World) (h : writeFile w p c = (Except.error e, w')) : w' = w := by
  unfold writeFile at h
  split at h
  · simp only [Prod.mk.injEq] at h; exact h.2.symm
  · split at h
    · split at h
      · simp only [Prod.mk.injEq] at h; exact h.2.symm
      · simp only [Prod.mk.injEq] at h; exact h.2.symm
      · simp at h
    · simp only [Prod.mk.injEq] at h; exact h.2.symm

theorem symlinkOsCall_ok (w : World) (dst : String) (src : FsPath) (u : Unit)
    (w' : World) (h : symlinkOsCall w dst src = (Except.ok u, w')) :
    w' = { w with fs := setPath w.fs src (Entry.symlinkEntry dst) }
    ∧ lookupPath w.fs src = none := by
  unfold symlinkOsCall at h
  split at h
  · simp at h
  next hnone =>
    split at h
    · simp at h
    · split at h
      · simp only [Prod.mk.injEq] at h
        exact ⟨h.2.symm, hnone⟩
      · simp at h

theorem symlinkOsCall_err (w : World) (dst : String) (src : FsPath)
    (e : String) (w' : World)
    (h : symlinkOsCall w dst src = (Except.error e, w')) : w' = w := by
  unfold symlinkOsCall at h
  split at h
  · simp only [Prod.mk.injEq] at h; exact h.2.symm
  · split at h
    · simp only [Prod.mk.injEq] at h; exact h.2.symm
    · split at h
      · simp at h
      · simp only [Prod.mk.injEq] at h; exact h.2.symm

theorem symlinkOsCall_exists (w : World) (dst : String) (src : FsPath)
    (e0 : Entry) (h : lookupPath w.fs src = some e0) :
    symlinkOsCall w dst src = (Except.error "File exists (os error 17)", w) := by
  unfold symlinkOsCall
  rw [h]

theorem createDirAllGo_shape (comps : List String) : ∀ (w : World)
    (done : FsPath) (r : Except String Unit) (w' : World),
    createDirAllGo w done comps = (r, w') →
    ∃ fs', w' = { w with fs := fs' } := by
  induction comps with
  | nil =>
      intro w done r w' h
      unfold createDirAllGo at h
      simp only [Prod.mk.injEq] at h
      exact ⟨w.fs, h.2.symm⟩
  | cons c rest ih =>
      intro w done r w' h
      unfold createDirAllGo at h
      split at h
      · exact ih _ _ _ _ h
      · simp only [Prod.mk.injEq] at h
        exact ⟨w.fs, h.2.symm⟩
      · obtain ⟨fs', hfs⟩ := ih _ _ _ _ h
        exact ⟨fs', hfs⟩

theorem createDirAllGo_mono (comps : List String) : ∀ (w : World)
    (done : FsPath) (r : Except String Unit) (w' : World),
    createDirAllGo w done comps = (r, w') →
    ∀ q e, lookupPath w.fs q = some e → lookupPath w'.fs q = some e := by
  induction comps with
  | nil =>
      intro w done r w' h q e hq
      unfold createDirAllGo at h
      simp only [Prod.mk.injEq] at h
      rw [← h.2]
      exact hq
  | cons c rest ih =>
      intro w done r w' h q e hq
      unfold createDirAllGo at h
      split at h
      · exact ih _ _ _ _ h q e hq
      · simp only [Prod.mk.injEq] at h
        rw [← h.2]
        exact hq
      next hnone =>
        refine ih _ _ _ _ h q e ?_
        have hne : q ≠ done ++ [c] := by
          intro hqe; rw [hqe] at hq; rw [hq] at hnone; exact Option.noConfusion hnone
        show lookupPath (setPath w.fs (done ++ [c]) Entry.dir) q = some e
        rw [lookup_setPath_ne _ _ _ _ hne]
        exact hq

theorem createDirAllGo_back (comps : List String) : ∀ (w : World)
    (done : FsPath) (r : Except String Unit) (w' : World),
    createDirAllGo w done comps = (r, w') →
    ∀ q e, lookupPath w'.fs q = some e →
      lookupPath w.fs q = some e ∨ e = Entry.dir := by
  induction comps with
  | nil =>
      intro w done r w' h q e hq
      unfold createDirAllGo at h
      simp only [Prod.mk.injEq] at h
      rw [← h.2] at hq
      exact Or.inl hq
  | cons c rest ih =>
      intro w done r w' h q e hq
      unfold createDirAllGo at h
      split at h
      · exact ih _ _ _ _ h q e hq
      · simp only [Prod.mk.injEq] at h
        rw [← h.2] at hq
        exact Or.inl hq
      · rcases ih _ _ _ _ h q e hq with hmid | hdir
        · by_cases hqe : q = done ++ [c]
          · rw [hqe] at hmid ⊢
            rw [lookup_setPath_self] at hmid
            exact Or.inr (Option.some.inj hmid).symm
          · rw [show lookupPath (setPath w.fs (done ++ [c]) Entry.dir) q
                  = lookupPath w.fs q from lookup_setPath_ne _ _ _ _ hqe] at hmid
            exact Or.inl hmid
        · exact Or.inr hdir

theorem createDirAllGo_noop (comps : List String) : ∀ (w : World)
    (done : FsPath),
    (∀ k, k < comps.length →
      lookupPath w.fs (done ++ comps.take (k + 1)) = some Entry.dir) →
    createDirAllGo w done comps = (Except.ok (), w) := by
  induction comps with
  | nil => intro w done _; rfl
  | cons c rest ih =>
      intro w done hdirs
      have h0 : lookupPath w.fs (done ++ [c]) = some Entry.dir := by
        have := hdirs 0 (by simp)
        simpa using this
      unfold createDirAllGo
      rw [h0]
      refine ih w (done ++ [c]) ?_
      intro k hk
      have := hdirs (k + 1) (by simpa using Nat.succ_lt_succ hk)
      rw [show done ++ (c :: rest).take (k + 1 + 1)
          = (done ++ [c]) ++ rest.take (k + 1) by simp] at this
      exact this

theorem createDirAllGo_dirs (comps : List String) : ∀ (w : World)
    (done : FsPath) (w' : World),
    createDirAllGo w done comps = (Except.ok (), w') →
    ∀ k, k < comps.length →
      lookupPath w'.fs (done ++ comps.take (k + 1)) = some Entry.dir := by
  induction comps with
  | nil => intro w done w' _ k hk; simp at hk
  | cons c rest ih =>
      intro w done w' h k hk
      unfold createDirAllGo at h
      split at h
      next hdir =>
        cases k with
        | zero =>
            simpa using createDirAllGo_mono rest _ _ _ _ h (done ++ [c])
              Entry.dir hdir
        | succ k =>
            have := ih _ _ _ h k (by simpa using Nat.lt_of_succ_lt_succ hk)
            rw [show done ++ (c :: rest).take (k + 1 + 1)
                = (done ++ [c]) ++ rest.take (k + 1) by simp]
            exact this
      · simp at h
      next hnone =>
        cases k with
        | zero =>
            have hself : lookupPath (setPath w.fs (done ++ [c]) Entry.dir)
                (done ++ [c]) = some Entry.dir := lookup_setPath_self _ _ _
            simpa using createDirAllGo_mono rest _ _ _ _ h (done ++ [c])
              Entry.dir hself
        | succ k =>
            have := ih _ _ _ h k (by simpa using Nat.lt_of_succ_lt_succ hk)
            rw [show done ++ (c :: rest).take (k + 1 + 1)
                = (done ++ [c]) ++ rest.take (k + 1) by simp]
            exact this

theorem createDirAll_shape (w : World) (p : FsPath) (r : Except String Unit)
    (w' : World) (h : createDirAll w p = (r, w')) :
    ∃ fs', w' = { w with fs := fs' } :=
  createDirAllGo_shape p w [] r w' h

theorem createDirAll_mono (w : World) (p : FsPath) (r : Except String Unit)
    (w' : World) (h : createDirAll w p = (r, w')) (q : FsPath) (e : Entry)
    (hq : lookupPath w.fs q = some e) : lookupPath w'.fs q = some e :=
  createDirAllGo_mono p w [] r w' h q e hq

theorem createDirAll_back (w : World) (p : FsPath) (r : Except String Unit)
    (w' : World) (h : createDirAll w p = (r, w')) (q : FsPath) (e : Entry)
    (hq : lookupPath w'.fs q = some e) :
    lookupPath w.fs q = some e ∨ e = Entry.dir :=
  createDirAllGo_back p w [] r w' h q e hq

theorem createDirAll_noop (w : World) (p : FsPath)
    (hdirs : ∀ k, k < p.length →
      lookupPath w.fs (p.take (k + 1)) = some Entry.dir) :
    createDirAll w p = (Except.ok (), w) := by
  unfold createDirAll
  refine createDirAllGo_noop p w [] ?_
  simpa using hdirs

theorem createDirAll_dirs (w : World) (p : FsPath) (w' : World)
    (h : createDirAll w p = (Except.ok (), w')) (k : Nat) (hk : k < p.length) :
    lookupPath w'.fs (p.take (k + 1)) = some Entry.dir := by
  have := createDirAllGo_dirs p w [] w' h k hk
  simpa using this

theorem make_parent_concat (p : FsPath) (a : String) (w : World) :
    make_parent (p ++ [a]) w = createDirAll w p := by
  unfold make_parent
  rw [parentOf_concat]

/-! ### Sequencing lemmas -/

theorem bindE_cases {α β : Type} (m : Except String α × World)
    (f : α → World → Except String β × World) (r : Except String β)
    (w' : World) (h : bindE m f = (r, w')) :
    (∃ a w1, m = (Except.ok a, w1) ∧ f a w1 = (r, w'))
    ∨ (∃ e, m = (Except.error e, w') ∧ r = Except.error e) := by
  obtain ⟨r0, w0⟩ := m
  cases r0 with
  | ok a => exact Or.inl ⟨a, w0, rfl, h⟩
  | error e =>
      simp only [bindE, Prod.mk.injEq] at h
      exact Or.inr ⟨e, by rw [h.2], h.1.symm⟩

theorem withContext_elim {α : Type} (m : Except String α × World) (c : String)
    (r : Except String α) (w' : World) (h : withContext m c = (r, w')) :
    (∃ a, r = Except.ok a ∧ m = (Except.ok a, w'))
    ∨ (∃ e0, m = (Except.error e0, w') ∧ r = Except.error (c ++ ": " ++ e0)) := by
  obtain ⟨r0, w0⟩ := m
  cases r0 with
  | ok a =>
      simp only [withContext, Prod.mk.injEq] at h
      exact Or.inl ⟨a, h.1.symm, by rw [h.2]⟩
  | error e =>
      simp only [withContext, Prod.mk.injEq] at h
      exact Or.inr ⟨e, by rw [h.2], h.1.symm⟩

theorem withContext_of_ok {α : Type} (m : Except String α × World) (c : String)
    (a : α) (w' : World) (h : m = (Except.ok a, w')) :
    withContext m c = (Except.ok a, w') := by
  rw [h]; rfl

theorem withContext_of_err {α : Type} (m : Except String α × World)
    (c : String) (e : String) (w' : World) (h : m = (Except.error e, w')) :
    withContext m c = (Except.error (c ++ ": " ++ e), w') := by
  rw [h]; rfl

theorem bindE_of_ok {α β : Type} (m : Except String α × World)
    (f : α → World → Except String β × World) (a : α) (w1 : World)
    (h : m = (Except.ok a, w1)) : bindE m f = f a w1 := by
  rw [h]; rfl

theorem bindE_of_err {α β : Type} (m : Except String α × World)
    (f : α → World → Except String β × World) (e : String) (w1 : World)
    (h : m = (Except.error e, w1)) : bindE m f = (Except.error e, w1) := by
  rw [h]; rfl

/-! ### World-field simp lemmas -/

@[simp] theorem logLine_fs (w : World) (s : String) :
    (logLine w s).fs = w.fs := rfl

@[simp] theorem logLine_probe (w : World) (s : String) :
    (logLine w s).probe = w.probe := rfl

@[simp] theorem logLine_probeCalls (w : World) (s : String) :
    (logLine w s).probeCalls = w.probeCalls := rfl

@[simp] theorem logLine_currentExe (w : World) (s : String) :
    (logLine w s).currentExe = w.currentExe := rfl

/-! ### `make_parent` and `make_symlink` lemmas -/

theorem writeFile_shape (w : World) (p : FsPath) (c : String)
    (r : Except String Unit) (w' : World) (h : writeFile w p c = (r, w')) :
    ∃ fs', w' = { w with fs := fs' } := by
  cases r with
  | ok a => exact ⟨setPath w.fs p (Entry.file c), (writeFile_ok w p c a w' h).1⟩
  | error e => exact ⟨w.fs, writeFile_err w p c e w' h⟩

theorem symlinkOsCall_shape (w : World) (dst : String) (src : FsPath)
    (r : Except String Unit) (w' : World)
    (h : symlinkOsCall w dst src = (r, w')) :
    ∃ fs', w' = { w with fs := fs' } := by
  cases r with
  | ok a =>
      exact ⟨setPath w.fs src (Entry.symlinkEntry dst),
        (symlinkOsCall_ok w dst src a w' h).1⟩
  | error e => exact ⟨w.fs, symlinkOsCall_err w dst src e w' h⟩

theorem make_parent_shape (of : FsPath) (w : World) (r : Except String Unit)
    (w' : World) (h : make_parent of w = (r, w')) :
    ∃ fs', w' = { w with fs := fs' } := by
  unfold make_parent at h
  split at h
  · simp only [Prod.mk.injEq] at h
    exact ⟨w.fs, h.2.symm⟩
  · exact createDirAll_shape w _ r w' h

theorem make_parent_mono (of : FsPath) (w : World) (r : Except String Unit)
    (w' : World) (h : make_parent of w = (r, w')) (q : FsPath) (e : Entry)
    (hq : lookupPath w.fs q = some e) : lookupPath w'.fs q = some e := by
  unfold make_parent at h
  split at h
  · simp only [Prod.mk.injEq] at h
    rw [← h.2]; exact hq
  · exact createDirAll_mono w _ r w' h q e hq

theorem make_parent_back (of : FsPath) (w : World) (r : Except String Unit)
    (w' : World) (h : make_parent of w = (r, w')) (q : FsPath) (e : Entry)
    (hq : lookupPath w'.fs q = some e) :
    lookupPath w.fs q = some e ∨ e = Entry.dir := by
  unfold make_parent at h
  split at h
  · simp only [Prod.mk.injEq] at h
    rw [← h.2] at hq
    exact Or.inl hq
  · exact createDirAll_back w _ r w' h q e hq

theorem make_symlink_shape (dst : String) (src : FsPath) (w : World)
    (r : Except String Unit) (w' : World)
    (h : make_symlink dst src w = (r, w')) :
    ∃ fs', w' = { w with fs := fs' } := by
  unfold make_symlink at h
  rcases bindE_cases _ _ _ _ h with ⟨a, w1, hm, hf⟩ | ⟨e, hm, hr⟩
  · obtain ⟨fs1, hw1⟩ := make_parent_shape src w _ w1 hm
    rcases withContext_elim _ _ _ _ hf with ⟨b, _, hsym⟩ | ⟨e0, hsym, _⟩
    · obtain ⟨fs2, hw2⟩ := symlinkOsCall_shape w1 dst src _ w' hsym
      exact ⟨fs2, by rw [hw2, hw1]⟩
    · obtain ⟨fs2, hw2⟩ := symlinkOsCall_shape w1 dst src _ w' hsym
      exact ⟨fs2, by rw [hw2, hw1]⟩
  · exact make_parent_shape src w _ w' hm

theorem make_symlink_mono (dst : String) (src : FsPath) (w : World)
    (r : Except String Unit) (w' : World)
    (h : make_symlink dst src w = (r, w')) (q : FsPath) (e : Entry)
    (hq : lookupPath w.fs q = some e) : lookupPath w'.fs q = some e := by
  unfold make_symlink at h
  rcases bindE_cases _ _ _ _ h with ⟨a, w1, hm, hf⟩ | ⟨e', hm, hr⟩
  · have hq1 : lookupPath w1.fs q = some e := make_parent_mono src w _ w1 hm q e hq
    rcases withContext_elim _ _ _ _ hf with ⟨b, _, hsym⟩ | ⟨e0, hsym, _⟩
    · obtain ⟨hw2, hnone⟩ := symlinkOsCall_ok w1 dst src b w' hsym
      have hne : q ≠ src := by
        intro hqe; rw [hqe, hnone] at hq1; exact Option.noConfusion hq1
      rw [hw2]
      show lookupPath (setPath w1.fs src (Entry.symlinkEntry dst)) q = some e
      rw [lookup_setPath_ne _ _ _ _ hne]
      exact hq1
    · rw [symlinkOsCall_err w1 dst src e0 w' hsym]
      exact hq1
  · exact make_parent_mono src w _ w' hm q e hq

theorem make_symlink_back (dst : String) (src : FsPath) (w : World)
    (r : Except String Unit) (w' : World)
    (h : make_symlink dst src w = (r, w')) (q : FsPath) (e : Entry)
    (hq : lookupPath w'.fs q = some e) :
    lookupPath w.fs q = some e ∨ e = Entry.dir
    ∨ (q = src ∧ e = Entry.symlinkEntry dst) := by
  unfold make_symlink at h
  rcases bindE_cases _ _ _ _ h with ⟨a, w1, hm, hf⟩ | ⟨e', hm, hr⟩
  · rcases withContext_elim _ _ _ _ hf with ⟨b, _, hsym⟩ | ⟨e0, hsym, _⟩
    · obtain ⟨hw2, hnone⟩ := symlinkOsCall_ok w1 dst src b w' hsym
      rw [hw2] at hq
      by_cases hqe : q = src
      · rw [hqe] at hq ⊢
        rw [show lookupPath (setPath w1.fs src (Entry.symlinkEntry dst)) src
            = some (Entry.symlinkEntry dst) from lookup_setPath_self _ _ _] at hq
        exact Or.inr (Or.inr ⟨rfl, (Option.some.inj hq).symm⟩)
      · rw [show lookupPath (setPath w1.fs src (Entry.symlinkEntry dst)) q
            = lookupPath w1.fs q from lookup_setPath_ne _ _ _ _ hqe] at hq
        rcases make_parent_back src w _ w1 hm q e hq with h1 | h1
        · exact Or.inl h1
        · exact Or.inr (Or.inl h1)
    · rw [symlinkOsCall_err w1 dst src e0 w' hsym] at hq
      rcases make_parent_back src w _ w1 hm q e hq with h1 | h1
      · exact Or.inl h1
      · exact Or.inr (Or.inl h1)
  · rcases make_parent_back src w _ w' hm q e hq with h1 | h1
    · exact Or.inl h1
    · exact Or.inr (Or.inl h1)

theorem make_symlink_ok (dst : String) (src : FsPath) (w : World) (u : Unit)
    (w' : World) (h : make_symlink dst src w = (Except.ok u, w')) :
    lookupPath w'.fs src = some (Entry.symlinkEntry dst)
    ∧ lookupPath w.fs src = none := by
  unfold make_symlink at h
  rcases bindE_cases _ _ _ _ h with ⟨a, w1, hm, hf⟩ | ⟨e', hm, hr⟩
  · rcases withContext_elim _ _ _ _ hf with ⟨b, _, hsym⟩ | ⟨e0, _, hr⟩
    · obtain ⟨hw2, hnone⟩ := symlinkOsCall_ok w1 dst src b w' hsym
      constructor
      · rw [hw2]
        exact lookup_setPath_self _ _ _
      · cases hq : lookupPath w.fs src with
        | none => rfl
        | some e1 =>
            have := make_parent_mono src w _ w1 hm src e1 hq
            rw [hnone] at this
            exact Option.noConfusion this
    · exact Except.noConfusion hr
  · exact Except.noConfusion hr

/-! ### `handle_device` lemmas -/

/-- The path of the per-device swap unit file written by `handle_device`. -/
def swapUnitPath (out : FsPath) (n : String) : FsPath := out ++ [devSwapName n]

/-- The path of the `swap.target.wants` directory. -/
def wantsDirPath (out : FsPath) : FsPath := out ++ ["swap.target.wants"]

/-- The path of the activation symlink created by `handle_device`. -/
def symlinkFsPath (out : FsPath) (n : String) : FsPath :=
  out ++ ["swap.target.wants", devSwapName n]

theorem writeFile_back (w : World) (p : FsPath) (c : String)
    (r : Except String Unit) (w' : World) (h : writeFile w p c = (r, w'))
    (q : FsPath) (e : Entry) (hq : lookupPath w'.fs q = some e) :
    lookupPath w.fs q = some e ∨ (q = p ∧ e = Entry.file c) := by
  cases r with
  | ok a =>
      obtain ⟨hw', _, _, _, _⟩ := writeFile_ok w p c a w' h
      rw [hw'] at hq
      by_cases hqe : q = p
      · rw [hqe] at hq ⊢
        rw [show lookupPath (setPath w.fs p (Entry.file c)) p
            = some (Entry.file c) from lookup_setPath_self _ _ _] at hq
        exact Or.inr ⟨rfl, (Option.some.inj hq).symm⟩
      · rw [show lookupPath (setPath w.fs p (Entry.file c)) q
            = lookupPath w.fs q from lookup_setPath_ne _ _ _ _ hqe] at hq
        exact Or.inl hq
  | error e0 =>
      rw [writeFile_err w p c e0 w' h] at hq
      exact Or.inl hq

theorem swapUnitPath_ne_symlinkFsPath (out : FsPath) (n m : String) :
    swapUnitPath out n ≠ symlinkFsPath out m := by
  intro h
  exact snoc_ne_snoc2 out (devSwapName n) "swap.target.wants" (devSwapName m) h

theorem handle_device_shape (out : FsPath) (d : Device) (w : World)
    (r : Except String Bool) (w' : World)
    (h : handle_device out d w = (r, w')) :
    ∃ fs' cs', w' = { w with fs := fs', console := cs' } := by
  simp only [handle_device] at h
  rcases bindE_cases _ _ _ _ h with ⟨a, w1, hm, hf⟩ | ⟨e, hm, hr⟩
  · rcases withContext_elim _ _ _ _ hm with ⟨b, _, hwf⟩ | ⟨e0, hwf, he⟩
    · obtain ⟨fs1, hw1⟩ := writeFile_shape _ _ _ _ _ hwf
      rcases bindE_cases _ _ _ _ hf with ⟨a2, w2, hms, hk⟩ | ⟨e2, hms, hr2⟩
      · simp only [Prod.mk.injEq] at hk
        obtain ⟨fs2, hw2⟩ := make_symlink_shape _ _ _ _ _ hms
        refine ⟨fs2, w.console ++ ["Creating " ++ ("dev-" ++ d.name ++ ".swap")
          ++ " for /dev/" ++ d.name ++ " (" ++
          toString (d.disksize / 1024 / 1024) ++ "MB)"], ?_⟩
        rw [← hk.2, hw2, hw1]
        rfl
      · obtain ⟨fs2, hw2⟩ := make_symlink_shape _ _ _ _ _ hms
        refine ⟨fs2, w.console ++ ["Creating " ++ ("dev-" ++ d.name ++ ".swap")
          ++ " for /dev/" ++ d.name ++ " (" ++
          toString (d.disksize / 1024 / 1024) ++ "MB)"], ?_⟩
        rw [hw2, hw1]
        rfl
    · exact Except.noConfusion he
  · rcases withContext_elim _ _ _ _ hm with ⟨b, hb, hwf⟩ | ⟨e0, hwf, he⟩
    · exact Except.noConfusion hb
    · obtain ⟨fs1, hw1⟩ := writeFile_shape _ _ _ _ _ hwf
      refine ⟨fs1, w.console ++ ["Creating " ++ ("dev-" ++ d.name ++ ".swap")
        ++ " for /dev/" ++ d.name ++ " (" ++
        toString (d.disksize / 1024 / 1024) ++ "MB)"], ?_⟩
      rw [hw1]
      rfl

theorem handle_device_lookup (out : FsPath) (d : Device) (w : World)
    (r : Except String Bool) (w' : World)
    (h : handle_device out d w = (r, w')) (q : FsPath) (e : Entry)
    (hq : lookupPath w.fs q = some e) :
    lookupPath w'.fs q = some e
    ∨ (q = swapUnitPath out d.name ∧ e ≠ Entry.dir
        ∧ (∀ t, e ≠ Entry.symlinkEntry t)
        ∧ lookupPath w'.fs q = some (Entry.file (swapUnitText d.name))) := by
  simp only [handle_device] at h
  rcases bindE_cases _ _ _ _ h with ⟨a, w1, hm, hf⟩ | ⟨e', hm, hr⟩
  case inr =>
    rcases withContext_elim _ _ _ _ hm with ⟨b, hb, hwf⟩ | ⟨e0, hwf, he⟩
    · exact Except.noConfusion hb
    · rw [writeFile_err _ _ _ _ _ hwf]
      exact Or.inl hq
  case inl =>
    rcases withContext_elim _ _ _ _ hm with ⟨b, _, hwf⟩ | ⟨e0, hwf, he⟩
    case inr => exact Except.noConfusion he
    case inl =>
      obtain ⟨hw1, hnd, hns, _, _⟩ := writeFile_ok _ _ _ _ _ hwf
      have hms : ∃ res, make_symlink ("../" ++ ("dev-" ++ d.name ++ ".swap"))
          (out ++ ["swap.target.wants", "dev-" ++ d.name ++ ".swap"]) w1
            = (res, w') := by
        rcases bindE_cases _ _ _ _ hf with ⟨a2, w2, hms, hk⟩ | ⟨e2, hms, hr2⟩
        · simp only [Prod.mk.injEq] at hk
          exact ⟨Except.ok a2, by rw [hms, hk.2]⟩
        · exact ⟨Except.error e2, hms⟩
      obtain ⟨res, hms⟩ := hms
      by_cases hqe : q = out ++ ["dev-" ++ d.name ++ ".swap"]
      · refine Or.inr ⟨hqe, ?_, ?_, ?_⟩
        · intro hed
          rw [hqe] at hq
          rw [show lookupPath (logLine w _).fs (out ++ ["dev-" ++ d.name ++ ".swap"]) = lookupPath w.fs (out ++ ["dev-" ++ d.name ++ ".swap"]) from rfl] at hnd
          rw [hq, hed] at hnd
          exact hnd rfl
        · intro t het
          rw [hqe] at hq
          have := hns t
          rw [show lookupPath (logLine w _).fs (out ++ ["dev-" ++ d.name ++ ".swap"]) = lookupPath w.fs (out ++ ["dev-" ++ d.name ++ ".swap"]) from rfl] at this
          rw [hq, het] at this
          exact this rfl
        · refine make_symlink_mono _ _ _ _ _ hms q _ ?_
          rw [hw1, hqe]
          show lookupPath (setPath w.fs (out ++ ["dev-" ++ d.name ++ ".swap"])
            (Entry.file (swapUnitText d.name))) (out ++ ["dev-" ++ d.name ++ ".swap"]) = _
          exact lookup_setPath_self _ _ _
      · refine Or.inl (make_symlink_mono _ _ _ _ _ hms q e ?_)
        rw [hw1]
        show lookupPath (setPath (logLine w _).fs
          (out ++ ["dev-" ++ d.name ++ ".swap"])
          (Entry.file (swapUnitText d.name))) q = some e
        rw [lookup_setPath_ne _ _ _ _ hqe]
        exact hq

theorem path_ne_of_length_ne (p q : FsPath) (h : p.length ≠ q.length) :
    p ≠ q := fun he => h (congrArg List.length he)

theorem make_symlink_ok_dirs (dst : String) (src : FsPath) (w : World)
    (u : Unit) (w' : World) (h : make_symlink dst src w = (Except.ok u, w'))
    (k : Nat) (hk : k < src.dropLast.length) :
    lookupPath w'.fs (src.dropLast.take (k + 1)) = some Entry.dir := by
  unfold make_symlink at h
  rcases bindE_cases _ _ _ _ h with ⟨a, w1, hm, hf⟩ | ⟨e', hm, hr⟩
  swap
  · exact Except.noConfusion hr
  · unfold make_parent at hm
    split at hm
    · simp at hm
    next par hpar =>
      obtain ⟨hdrop, hne⟩ := parentOf_eq_some src par hpar
      subst hdrop
      have hdir1 : lookupPath w1.fs (src.dropLast.take (k + 1)) = some Entry.dir :=
        createDirAll_dirs w _ w1 (by cases a; exact hm) k hk
      rcases withContext_elim _ _ _ _ hf with ⟨b, _, hsym⟩ | ⟨e0, _, hr⟩
      swap
      · exact Except.noConfusion hr
      · obtain ⟨hw2, hnone⟩ := symlinkOsCall_ok w1 dst src b w' hsym
        rw [hw2]
        have hqne : src.dropLast.take (k + 1) ≠ src := by
          refine path_ne_of_length_ne _ _ ?_
          rw [List.length_take]
          have h1 : src.dropLast.length < src.length := by
            rw [List.length_dropLast]
            have h0 : 0 < src.length := List.length_pos.mpr hne
            omega
          have h2 : min (k + 1) src.dropLast.length ≤ src.dropLast.length :=
            Nat.min_le_right _ _
          omega
        show lookupPath (setPath w1.fs src (Entry.symlinkEntry dst)) _ = _
        rw [lookup_setPath_ne _ _ _ _ hqne]
        exact hdir1

theorem handle_device_back (out : FsPath) (d : Device) (w : World)
    (r : Except String Bool) (w' : World)
    (h : handle_device out d w = (r, w')) (q : FsPath) (e : Entry)
    (hq : lookupPath w'.fs q = some e) :
    lookupPath w.fs q = some e ∨ e = Entry.dir
    ∨ (q = swapUnitPath out d.name ∧ e = Entry.file (swapUnitText d.name))
    ∨ (q = symlinkFsPath out d.name
        ∧ e = Entry.symlinkEntry ("../" ++ devSwapName d.name)) := by
  simp only [handle_device] at h
  rcases bindE_cases _ _ _ _ h with ⟨a, w1, hm, hf⟩ | ⟨e', hm, hr⟩
  case inr =>
    rcases withContext_elim _ _ _ _ hm with ⟨b, hb, hwf⟩ | ⟨e0, hwf, he⟩
    · exact Except.noConfusion hb
    · rw [writeFile_err _ _ _ _ _ hwf] at hq
      exact Or.inl hq
  case inl =>
    rcases withContext_elim _ _ _ _ hm with ⟨b, _, hwf⟩ | ⟨e0, hwf, he⟩
    case inr => exact Except.noConfusion he
    case inl =>
      have hms : ∃ res, make_symlink ("../" ++ ("dev-" ++ d.name ++ ".swap"))
          (out ++ ["swap.target.wants", "dev-" ++ d.name ++ ".swap"]) w1
            = (res, w') := by
        rcases bindE_cases _ _ _ _ hf with ⟨a2, w2, hms, hk⟩ | ⟨e2, hms, hr2⟩
        · simp only [Prod.mk.injEq] at hk
          exact ⟨Except.ok a2, by rw [hms, hk.2]⟩
        · exact ⟨Except.error e2, hms⟩
      obtain ⟨res, hms⟩ := hms
      rcases make_symlink_back _ _ _ _ _ hms q e hq with h1 | h1 | ⟨hqs, hes⟩
      · rcases writeFile_back _ _ _ _ _ hwf q e h1 with h2 | ⟨hqp, hep⟩
        · exact Or.inl h2
        · exact Or.inr (Or.inr (Or.inl ⟨hqp, hep⟩))
      · exact Or.inr (Or.inl h1)
      · exact Or.inr (Or.inr (Or.inr ⟨hqs, hes⟩))

theorem handle_device_ok (out : FsPath) (d : Device) (w : World) (b : Bool)
    (w' : World) (h : handle_device out d w = (Except.ok b, w')) :
    b = true
    ∧ lookupPath w'.fs (swapUnitPath out d.name)
        = some (Entry.file (swapUnitText d.name))
    ∧ lookupPath w'.fs (symlinkFsPath out d.name)
        = some (Entry.symlinkEntry ("../" ++ devSwapName d.name))
    ∧ (∀ k, k < (wantsDirPath out).length →
        lookupPath w'.fs ((wantsDirPath out).take (k + 1)) = some Entry.dir)
    ∧ lookupPath w.fs (symlinkFsPath out d.name) = none := by
  simp only [handle_device] at h
  rcases bindE_cases _ _ _ _ h with ⟨a, w1, hm, hf⟩ | ⟨e', hm, hr⟩
  swap
  · exact Except.noConfusion hr
  · rcases withContext_elim _ _ _ _ hm with ⟨u, _, hwf⟩ | ⟨e0, hwf, he⟩
    swap
    · exact Except.noConfusion he
    · obtain ⟨hw1, _, _, _, _⟩ := writeFile_ok _ _ _ _ _ hwf
      rcases bindE_cases _ _ _ _ hf with ⟨a2, w2, hms, hk⟩ | ⟨e2, hms, hr2⟩
      swap
      · exact Except.noConfusion hr2
      · simp only [Prod.mk.injEq] at hk
        have hb : b = true := by
          have := hk.1
          cases this
          rfl
        have hms' : make_symlink ("../" ++ ("dev-" ++ d.name ++ ".swap"))
            (out ++ ["swap.target.wants", "dev-" ++ d.name ++ ".swap"]) w1
              = (Except.ok a2, w') := by rw [hms, hk.2]
        obtain ⟨hsym, hnone1⟩ := make_symlink_ok _ _ _ _ _ hms'
        have hdropl : (out ++ ["swap.target.wants",
            "dev-" ++ d.name ++ ".swap"] : FsPath).dropLast
              = out ++ ["swap.target.wants"] := by
          rw [show (out ++ ["swap.target.wants", "dev-" ++ d.name ++ ".swap"] : FsPath)
              = (out ++ ["swap.target.wants"]) ++ ["dev-" ++ d.name ++ ".swap"] by simp,
            List.dropLast_concat]
        refine ⟨hb, ?_, hsym, ?_, ?_⟩
        · refine make_symlink_mono _ _ _ _ _ hms' _ _ ?_
          rw [hw1]
          show lookupPath (setPath (logLine w _).fs
            (out ++ ["dev-" ++ d.name ++ ".swap"])
            (Entry.file (swapUnitText d.name))) _ = _
          exact lookup_setPath_self _ _ _
        · intro k hk2
          have := make_symlink_ok_dirs _ _ _ _ _ hms' k (by rw [hdropl]; exact hk2)
          rw [hdropl] at this
          exact this
        · rw [hw1] at hnone1
          have hne : (out ++ ["swap.target.wants", "dev-" ++ d.name ++ ".swap"] : FsPath)
              ≠ out ++ ["dev-" ++ d.name ++ ".swap"] := by
            refine path_ne_of_length_ne _ _ ?_
            simp
          rw [show lookupPath (setPath (logLine w _).fs
              (out ++ ["dev-" ++ d.name ++ ".swap"])
              (Entry.file (swapUnitText d.name)))
              (out ++ ["swap.target.wants", "dev-" ++ d.name ++ ".swap"])
            = lookupPath (logLine w _).fs
              (out ++ ["swap.target.wants", "dev-" ++ d.name ++ ".swap"]) from
              lookup_setPath_ne _ _ _ _ hne] at hnone1
          exact hnone1

/-! ### Device-loop lemmas -/

theorem handleDevices_shape (out : FsPath) (devs : List Device) :
    ∀ (acc : Bool) (w : World) (r : Except String Bool) (w' : World),
    handleDevices out devs acc w = (r, w') →
    ∃ fs' cs', w' = { w with fs := fs', console := cs' } := by
  induction devs with
  | nil =>
      intro acc w r w' h
      simp only [handleDevices, Prod.mk.injEq] at h
      exact ⟨w.fs, w.console, h.2.symm⟩
  | cons d rest ih =>
      intro acc w r w' h
      simp only [handleDevices] at h
      rcases bindE_cases _ _ _ _ h with ⟨b, w1, hm, hf⟩ | ⟨e, hm, hr⟩
      · obtain ⟨fs1, cs1, hw1⟩ := handle_device_shape _ _ _ _ _ hm
        obtain ⟨fs2, cs2, hw2⟩ := ih _ _ _ _ hf
        exact ⟨fs2, cs2, by rw [hw2, hw1]⟩
      · obtain ⟨fs1, cs1, hw1⟩ := handle_device_shape _ _ _ _ _ hm
        exact ⟨fs1, cs1, hw1⟩

theorem handleDevices_lookup (out : FsPath) (devs : List Device) :
    ∀ (acc : Bool) (w : World) (r : Except String Bool) (w' : World),
    handleDevices out devs acc w = (r, w') →
    ∀ q e, lookupPath w.fs q = some e →
    lookupPath w'.fs q = some e
    ∨ (∃ d, d ∈ devs ∧ q = swapUnitPath out d.name ∧ e ≠ Entry.dir
        ∧ (∀ t, e ≠ Entry.symlinkEntry t)
        ∧ lookupPath w'.fs q = some (Entry.file (swapUnitText d.name))) := by
  induction devs with
  | nil =>
      intro acc w r w' h q e hq
      simp only [handleDevices, Prod.mk.injEq] at h
      rw [← h.2]
      exact Or.inl hq
  | cons d rest ih =>
      intro acc w r w' h q e hq
      simp only [handleDevices] at h
      rcases bindE_cases _ _ _ _ h with ⟨b, w1, hm, hf⟩ | ⟨e', hm, hr⟩
      · rcases handle_device_lookup _ _ _ _ _ hm q e hq with h1 | ⟨hqp, hnd, hns, h1⟩
        · rcases ih _ _ _ _ hf q e h1 with h2 | ⟨d', hd', hqp', hnd', hns', h2⟩
          · exact Or.inl h2
          · exact Or.inr ⟨d', List.mem_cons_of_mem d hd', hqp', hnd', hns', h2⟩
        · rcases ih _ _ _ _ hf q _ h1 with h2 | ⟨d', hd', hqp', _, _, h2⟩
          · exact Or.inr ⟨d, List.mem_cons_self d rest, hqp, hnd, hns, h2⟩
          · exact Or.inr ⟨d', List.mem_cons_of_mem d hd', hqp', hnd, hns, h2⟩
      · rcases handle_device_lookup _ _ _ _ _ hm q e hq with h1 | ⟨hqp, hnd, hns, h1⟩
        · exact Or.inl h1
        · exact Or.inr ⟨d, List.mem_cons_self d rest, hqp, hnd, hns, h1⟩

theorem handleDevices_back (out : FsPath) (devs : List Device) :
    ∀ (acc : Bool) (w : World) (r : Except String Bool) (w' : World),
    handleDevices out devs acc w = (r, w') →
    ∀ q e, lookupPath w'.fs q = some e →
    lookupPath w.fs q = some e ∨ e = Entry.dir
    ∨ (∃ d, d ∈ devs ∧
        ((q = swapUnitPath out d.name ∧ e = Entry.file (swapUnitText d.name))
          ∨ (q = symlinkFsPath out d.name
              ∧ e = Entry.symlinkEntry ("../" ++ devSwapName d.name)))) := by
  induction devs with
  | nil =>
      intro acc w r w' h q e hq
      simp only [handleDevices, Prod.mk.injEq] at h
      rw [← h.2] at hq
      exact Or.inl hq
  | cons d rest ih =>
      intro acc w r w' h q e hq
      simp only [handleDevices] at h
      rcases bindE_cases _ _ _ _ h with ⟨b, w1, hm, hf⟩ | ⟨e', hm, hr⟩
      · rcases ih _ _ _ _ hf q e hq with h1 | h1 | ⟨d', hd', h1⟩
        · rcases handle_device_back _ _ _ _ _ hm q e h1 with h2 | h2 | h2 | h2
          · exact Or.inl h2
          · exact Or.inr (Or.inl h2)
          · exact Or.inr (Or.inr ⟨d, List.mem_cons_self d rest, Or.inl h2⟩)
          · exact Or.inr (Or.inr ⟨d, List.mem_cons_self d rest, Or.inr h2⟩)
        · exact Or.inr (Or.inl h1)
        · exact Or.inr (Or.inr ⟨d', List.mem_cons_of_mem d hd', h1⟩)
      · rcases handle_device_back _ _ _ _ _ hm q e hq with h2 | h2 | h2 | h2
        · exact Or.inl h2
        · exact Or.inr (Or.inl h2)
        · exact Or.inr (Or.inr ⟨d, List.mem_cons_self d rest, Or.inl h2⟩)
        · exact Or.inr (Or.inr ⟨d, List.mem_cons_self d rest, Or.inr h2⟩)

theorem handleDevices_acc_true (out : FsPath) (devs : List Device) :
    ∀ (w : World) (made : Bool) (w' : World),
    handleDevices out devs true w = (Except.ok made, w') → made = true := by
  induction devs with
  | nil =>
      intro w made w' h
      simp only [handleDevices, Prod.mk.injEq, Except.ok.injEq] at h
      exact h.1.symm
  | cons d rest ih =>
      intro w made w' h
      simp only [handleDevices] at h
      rcases bindE_cases _ _ _ _ h with ⟨b, w1, hm, hf⟩ | ⟨e', hm, hr⟩
      · exact ih _ _ _ hf
      · exact Except.noConfusion hr

theorem handleDevices_made (out : FsPath) (devs : List Device) :
    ∀ (w : World) (made : Bool) (w' : World),
    handleDevices out devs false w = (Except.ok made, w') → devs ≠ [] →
    made = true := by
  intro w made w' h hne
  cases devs with
  | nil => exact absurd rfl hne
  | cons d rest =>
      simp only [handleDevices] at h
      rcases bindE_cases _ _ _ _ h with ⟨b, w1, hm, hf⟩ | ⟨e', hm, hr⟩
      · have hb := (handle_device_ok _ _ _ _ _ hm).1
        rw [hb] at hf
        exact handleDevices_acc_true out rest _ _ _ hf
      · exact Except.noConfusion hr

theorem handleDevices_witness (out : FsPath) (devs : List Device) :
    ∀ (acc : Bool) (w : World) (made : Bool) (w' : World),
    handleDevices out devs acc w = (Except.ok made, w') → devs ≠ [] →
    ∃ d, d ∈ devs ∧ lookupPath w'.fs (swapUnitPath out d.name)
      = some (Entry.file (swapUnitText d.name)) := by
  induction devs with
  | nil => intro _ _ _ _ _ hne; exact absurd rfl hne
  | cons d rest ih =>
      intro acc w made w' h _
      simp only [handleDevices] at h
      rcases bindE_cases _ _ _ _ h with ⟨b, w1, hm, hf⟩ | ⟨e', hm, hr⟩
      · cases rest with
        | nil =>
            simp only [handleDevices, Prod.mk.injEq] at hf
            rw [← hf.2]
            exact ⟨d, List.mem_cons_self d [],
              (handle_device_ok _ _ _ _ _ hm).2.1⟩
        | cons d2 rest2 =>
            obtain ⟨d', hd', hl⟩ := ih _ _ _ _ hf (by simp)
            exact ⟨d', List.mem_cons_of_mem d hd', hl⟩
      · exact Except.noConfusion hr

/-! ### `make_service_template` lemmas -/

/-- The path of the shared service template file. -/
def templatePath (out : FsPath) : FsPath := out ++ ["swap-create@.service"]

theorem make_service_template_none (out : FsPath) (w : World)
    (h : w.currentExe = none) :
    make_service_template out w
      = (Except.error "Couldn\x27t get path to generator executable", w) := by
  unfold make_service_template
  rw [h]

theorem make_service_template_ok (out : FsPath) (w : World) (u : Unit)
    (w' : World) (h : make_service_template out w = (Except.ok u, w')) :
    ∃ exe, w.currentExe = some exe
      ∧ w' = { w with
          fs := setPath w.fs (templatePath out) (Entry.file (serviceTemplateText exe)) }
      ∧ lookupPath w.fs (templatePath out) ≠ some Entry.dir
      ∧ (∀ t, lookupPath w.fs (templatePath out)
          ≠ some (Entry.symlinkEntry t)) := by
  unfold make_service_template at h
  split at h
  · simp at h
  next exe hexe =>
    rcases withContext_elim _ _ _ _ h with ⟨b, _, hwf⟩ | ⟨e0, _, hr⟩
    · obtain ⟨hw', hnd, hns, _, _⟩ := writeFile_ok _ _ _ _ _ hwf
      exact ⟨exe, hexe, hw', hnd, hns⟩
    · exact Except.noConfusion hr

theorem make_service_template_shape (out : FsPath) (w : World)
    (r : Except String Unit) (w' : World)
    (h : make_service_template out w = (r, w')) :
    ∃ fs', w' = { w with fs := fs' } := by
  unfold make_service_template at h
  split at h
  · simp only [Prod.mk.injEq] at h
    exact ⟨w.fs, h.2.symm⟩
  · rcases withContext_elim _ _ _ _ h with ⟨b, _, hwf⟩ | ⟨e0, hwf, _⟩
    · exact writeFile_shape _ _ _ _ _ hwf
    · exact ⟨w.fs, writeFile_err _ _ _ _ _ hwf⟩

theorem make_service_template_lookup (out : FsPath) (w : World)
    (r : Except String Unit) (w' : World)
    (h : make_service_template out w = (r, w')) (q : FsPath) (e : Entry)
    (hq : lookupPath w.fs q = some e) :
    lookupPath w'.fs q = some e
    ∨ (q = templatePath out ∧ e ≠ Entry.dir
        ∧ (∀ t, e ≠ Entry.symlinkEntry t)
        ∧ ∃ exe, w.currentExe = some exe
          ∧ lookupPath w'.fs q = some (Entry.file (serviceTemplateText exe))) := by
  unfold make_service_template at h
  split at h
  · simp only [Prod.mk.injEq] at h
    rw [← h.2]
    exact Or.inl hq
  next exe hexe =>
    rcases withContext_elim _ _ _ _ h with ⟨b, _, hwf⟩ | ⟨e0, hwf, _⟩
    · obtain ⟨hw', hnd, hns, _, _⟩ := writeFile_ok _ _ _ _ _ hwf
      by_cases hqe : q = templatePath out
      · have hq' : lookupPath w.fs (out ++ ["swap-create@.service"]) = some e := by
          rw [hqe] at hq; exact hq
        refine Or.inr ⟨hqe, ?_, ?_, exe, hexe, ?_⟩
        · intro hed; exact hnd (by rw [hq', hed])
        · intro t het; exact hns t (by rw [hq', het])
        · rw [hw', hqe]
          exact lookup_setPath_self _ _ _
      · refine Or.inl ?_
        rw [hw']
        show lookupPath (setPath w.fs (templatePath out) _) q = some e
        rw [lookup_setPath_ne _ _ _ _ hqe]
        exact hq
    · rw [writeFile_err _ _ _ _ _ hwf]
      exact Or.inl hq

theorem make_service_template_back (out : FsPath) (w : World)
    (r : Except String Unit) (w' : World)
    (h : make_service_template out w = (r, w')) (q : FsPath) (e : Entry)
    (hq : lookupPath w'.fs q = some e) :
    lookupPath w.fs q = some e
    ∨ (q = templatePath out ∧ ∃ exe, e = Entry.file (serviceTemplateText exe)) := by
  unfold make_service_template at h
  split at h
  · simp only [Prod.mk.injEq] at h
    rw [← h.2] at hq
    exact Or.inl hq
  next exe hexe =>
    rcases withContext_elim _ _ _ _ h with ⟨b, _, hwf⟩ | ⟨e0, hwf, _⟩
    · rcases writeFile_back _ _ _ _ _ hwf q e hq with h1 | ⟨hqp, hep⟩
      · exact Or.inl h1
      · exact Or.inr ⟨hqp, exe, hep⟩
    · rw [writeFile_err _ _ _ _ _ hwf] at hq
      exact Or.inl hq

/-! ### `run_generator` lemmas -/

theorem virtualization_container_exited (w : World) (c : Nat)
    (h : w.probe = ProbeOutcome.exited c) :
    virtualization_container w
      = (Except.ok (c == 0), { w with probeCalls := w.probeCalls + 1 }) := by
  unfold virtualization_container
  rw [h]

theorem virtualization_container_spawn (w : World) (m : String)
    (h : w.probe = ProbeOutcome.spawnFailure m) :
    virtualization_container w
      = (Except.error ("systemd-detect-virt call failed: " ++ m),
         { w with probeCalls := w.probeCalls + 1 }) := by
  unfold virtualization_container
  rw [h]

theorem run_generator_empty (root out : FsPath) (w : World) :
    run_generator root [] out w
      = (Except.ok (), logLine w "No devices configured, exiting.") := rfl

/-- The tail of `run_generator` executed when at least one device was made:
write the service template, then the module-autoload directive. -/
def finishRun (root out : FsPath) (w2 : World) : Except String Unit × World :=
  bindE (make_service_template out w2) (fun _ w3 =>
    bindE (make_parent (modulesLoadPath root) w3) (fun _ w4 =>
      withContext (writeFile w4 (modulesLoadPath root) "zram\n")
        ("Failed to write configuration for loading a module at "
          ++ display (modulesLoadPath root))))

theorem beq_zero_of_ne (c : Nat) (hc : c ≠ 0) : (c == 0) = false := by
  cases c with
  | zero => exact absurd rfl hc
  | succ n => rfl

theorem run_generator_container (root : FsPath) (d0 : Device)
    (rest : List Device) (out : FsPath) (w : World)
    (hp : w.probe = ProbeOutcome.exited 0) :
    run_generator root (d0 :: rest) out w
      = (Except.ok (), logLine { w with probeCalls := w.probeCalls + 1 }
          "Running in a container, exiting.") := by
  unfold run_generator
  rw [if_neg (by simp : ¬((d0 :: rest).isEmpty = true))]
  rw [virtualization_container_exited w 0 hp]
  simp only [bindE]
  rfl

theorem run_generator_eq_loop (root : FsPath) (d0 : Device)
    (rest : List Device) (out : FsPath) (w : World) (c : Nat)
    (hp : w.probe = ProbeOutcome.exited c) (hc : c ≠ 0) :
    run_generator root (d0 :: rest) out w
      = bindE (handleDevices out (d0 :: rest) false
            { w with probeCalls := w.probeCalls + 1 })
          (fun made w2 =>
            if made then finishRun root out w2 else (Except.ok (), w2)) := by
  unfold run_generator
  rw [if_neg (by simp : ¬((d0 :: rest).isEmpty = true))]
  rw [virtualization_container_exited w c hp]
  simp only [bindE]
  rw [beq_zero_of_ne c hc]
  simp only [Bool.false_eq_true, if_false]
  rfl

theorem run_generator_shape (root : FsPath) (devs : List Device)
    (out : FsPath) (w : World) (r : Except String Unit) (w' : World)
    (h : run_generator root devs out w = (r, w')) :
    ∃ fs' pc cs, w' = { w with fs := fs', probeCalls := pc, console := cs } := by
  cases devs with
  | nil =>
      rw [run_generator_empty] at h
      simp only [Prod.mk.injEq] at h
      exact ⟨w.fs, w.probeCalls, w.console ++ ["No devices configured, exiting."],
        by rw [← h.2]; rfl⟩
  | cons d rest =>
      cases hpc : w.probe with
      | spawnFailure m =>
          unfold run_generator at h
          rw [if_neg (by simp : ¬((d :: rest).isEmpty = true))] at h
          rw [virtualization_container_spawn w m hpc] at h
          simp only [bindE, Prod.mk.injEq] at h
          exact ⟨w.fs, w.probeCalls + 1, w.console, by rw [← h.2, hpc]⟩
      | exited c =>
          by_cases hc : c = 0
          · subst hc
            rw [run_generator_container root d rest out w hpc] at h
            simp only [Prod.mk.injEq] at h
            refine ⟨w.fs, w.probeCalls + 1,
              w.console ++ ["Running in a container, exiting."], ?_⟩
            rw [← h.2, hpc]
            rfl
          · rw [run_generator_eq_loop root d rest out w c hpc hc] at h
            rcases bindE_cases _ _ _ _ h with ⟨made, w2, hloop, hrest⟩ | ⟨e, hloop, hw2'⟩
            swap
            · obtain ⟨fs2, cs2, hw2⟩ := handleDevices_shape _ _ _ _ _ _ hloop
              exact ⟨fs2, w.probeCalls + 1, cs2, by rw [hw2, hpc]⟩
            · obtain ⟨fs2, cs2, hw2⟩ := handleDevices_shape _ _ _ _ _ _ hloop
              by_cases hmade : made = true
              · rw [hmade, if_pos rfl] at hrest
                unfold finishRun at hrest
                rcases bindE_cases _ _ _ _ hrest with ⟨u3, w3, hmst, h4⟩ | ⟨e3, hmst, _⟩
                swap
                · obtain ⟨fs3, hw3⟩ := make_service_template_shape _ _ _ _ hmst
                  exact ⟨fs3, w.probeCalls + 1, cs2, by rw [hw3, hw2, hpc]⟩
                · obtain ⟨fs3, hw3⟩ := make_service_template_shape _ _ _ _ hmst
                  rcases bindE_cases _ _ _ _ h4 with ⟨u4, w4, hmp, h5⟩ | ⟨e4, hmp, _⟩
                  swap
                  · obtain ⟨fs4, hw4⟩ := make_parent_shape _ _ _ _ hmp
                    exact ⟨fs4, w.probeCalls + 1, cs2, by rw [hw4, hw3, hw2, hpc]⟩
                  · obtain ⟨fs4, hw4⟩ := make_parent_shape _ _ _ _ hmp
                    rcases withContext_elim _ _ _ _ h5 with ⟨u5, _, hwf⟩ | ⟨e5, hwf, _⟩
                    · obtain ⟨fs5, hw5⟩ := writeFile_shape _ _ _ _ _ hwf
                      exact ⟨fs5, w.probeCalls + 1, cs2,
                        by rw [hw5, hw4, hw3, hw2, hpc]⟩
                    · obtain ⟨fs5, hw5⟩ := writeFile_shape _ _ _ _ _ hwf
                      exact ⟨fs5, w.probeCalls + 1, cs2,
                        by rw [hw5, hw4, hw3, hw2, hpc]⟩
              · have hmf : made = false := by
                  cases made
                  · rfl
                  · exact absurd rfl hmade
                rw [hmf] at hrest
                simp only [Bool.false_eq_true, if_false, Prod.mk.injEq] at hrest
                exact ⟨fs2, w.probeCalls + 1, cs2, by rw [← hrest.2, hw2, hpc]⟩

/-! ### Concrete scenario used by counterexamples and witnesses -/

deriving instance DecidableEq for Except

/-- A typical generator output directory. -/
def conc_out : FsPath := ["run", "systemd", "generator"]

/-- The system root (empty path prefix). -/
def conc_root : FsPath := []

/-- One configured device, `zram0` with a 2 GiB disksize. -/
def conc_devices : List Device := [⟨"zram0", 2147483648⟩]

/-- An initial world: the output directory exists, the probe reports
"not a container" (exit status 1), and the executable path resolves. -/
def conc_w0 : World :=
  { fs := [(conc_out, Entry.dir)]
  , probe := ProbeOutcome.exited 1
  , probeCalls := 0
  , currentExe := some "/usr/lib/systemd/system-generators/zram-generator"
  , console := [] }

/-- The same world with a probe reporting containerized (exit status 0). -/
def conc_wContainer : World :=
  { conc_w0 with probe := ProbeOutcome.exited 0 }

/-- A world in which `a` is a directory containing a file `b`. -/
def conc_wLink : World :=
  { fs := [(["a"], Entry.dir), (["a", "b"], Entry.file "x")]
  , probe := ProbeOutcome.exited 1
  , probeCalls := 0
  , currentExe := some "/usr/lib/systemd/system-generators/zram-generator"
  , console := [] }

/-! ### Claim C5 -/

/-- Claim C5: for an empty device list, `run_generator` returns success and
performs no filesystem interaction at all — the filesystem is unchanged and
the environment probe is never invoked (the probe-call counter is
unchanged); the only effect is one console log line. -/
theorem C5_empty_devices_no_effects (root out : FsPath) (w : World) :
    run_generator root [] out w
      = (Except.ok (), logLine w "No devices configured, exiting.")
    ∧ (run_generator root [] out w).2.fs = w.fs
    ∧ (run_generator root [] out w).2.probeCalls = w.probeCalls :=
  ⟨rfl, rfl, rfl⟩

/-! ### Claim C6 -/

/-- Claim C6: whenever the environment probe reports containerized
(`systemd-detect-virt --container` exits with status 0), `run_generator`
returns success and performs zero filesystem writes, for every device
list. -/
theorem C6_containerized_no_writes (root : FsPath) (devs : List Device)
    (out : FsPath) (w : World) (hp : w.probe = ProbeOutcome.exited 0) :
    resultIsOk (run_generator root devs out w).1 = true
    ∧ (run_generator root devs out w).2.fs = w.fs := by
  cases devs with
  | nil => exact ⟨rfl, rfl⟩
  | cons d rest =>
      rw [run_generator_container root d rest out w hp]
      exact ⟨rfl, rfl⟩

/-- Witness for C6 at a concrete containerized world. -/
theorem C6_containerized_no_writes_witness :
    resultIsOk (run_generator conc_root conc_devices conc_out conc_wContainer).1 = true
    ∧ (run_generator conc_root conc_devices conc_out conc_wContainer).2.fs
      = conc_wContainer.fs :=
  C6_containerized_no_writes conc_root conc_devices conc_out conc_wContainer rfl

/-! ### Claim C7 -/

/-- Claim C7: `virtualization_container` returns an error exactly when the
detection facility cannot be executed at all (spawn failure); when the
facility runs, a non-zero exit status is returned as the normal value
`false`, and the result is `true` exactly when the facility exits with
status 0 (success, i.e. a container-class result). -/
theorem C7_probe_error_classification (w : World) :
    ((∃ m, w.probe = ProbeOutcome.spawnFailure m)
      ↔ resultIsOk (virtualization_container w).1 = false)
    ∧ (∀ c, w.probe = ProbeOutcome.exited c → c ≠ 0 →
        (virtualization_container w).1 = Except.ok false)
    ∧ (∀ c, w.probe = ProbeOutcome.exited c →
        ((virtualization_container w).1 = Except.ok true ↔ c = 0)) := by
  refine ⟨⟨?_, ?_⟩, ?_, ?_⟩
  · rintro ⟨m, hm⟩
    rw [virtualization_container_spawn w m hm]
    rfl
  · intro hfalse
    cases hpc : w.probe with
    | spawnFailure m => exact ⟨m, rfl⟩
    | exited c =>
        rw [virtualization_container_exited w c hpc] at hfalse
        exact absurd hfalse (by simp [resultIsOk])
  · intro c hpc hc
    rw [virtualization_container_exited w c hpc]
    rw [beq_zero_of_ne c hc]
  · intro c hpc
    rw [virtualization_container_exited w c hpc]
    constructor
    · intro h
      have hb : (c == 0) = true := Except.ok.inj h
      simpa using hb
    · intro h
      subst h
      rfl

/-- Witness for C7: with exit status 1 the probe returns `ok false`. -/
theorem C7_probe_error_classification_witness :
    (virtualization_container conc_w0).1 = Except.ok false :=
  (C7_probe_error_classification conc_w0).2.1 1 rfl (by decide)

/-! ### Claim C10 -/

theorem make_symlink_eexist (dst : String) (src : FsPath) (w w1 : World)
    (e0 : Entry) (hmp : make_parent src w = (Except.ok (), w1))
    (hex : lookupPath w1.fs src = some e0) :
    make_symlink dst src w
      = (Except.error ("Failed to create symlink at " ++ dst
          ++ " (pointing to " ++ display src ++ ")" ++ ": "
          ++ "File exists (os error 17)"), w1) := by
  unfold make_symlink
  rw [bindE_of_ok _ _ _ _ hmp]
  rw [withContext_of_err _ _ _ _ (symlinkOsCall_exists w1 dst src e0 hex)]

/-- Claim C10: when symlink creation fails with "already exists", the error
message places the symlink's target text `dst` in the
"Failed to create symlink at {}" slot and the link's filesystem location
`src` in the "(pointing to {})" slot — each path is attached to the label
describing the other's role. -/
theorem C10_symlink_error_slots (dst : String) (src : FsPath) (w w1 : World)
    (e0 : Entry) (hmp : make_parent src w = (Except.ok (), w1))
    (hex : lookupPath w1.fs src = some e0) :
    (make_symlink dst src w).1
      = Except.error ("Failed to create symlink at " ++ dst
          ++ " (pointing to " ++ display src ++ ")" ++ ": "
          ++ "File exists (os error 17)") := by
  rw [make_symlink_eexist dst src w w1 e0 hmp hex]

/-- Witness for C10: concrete paths; the target text lands after "at", the
location after "pointing to". -/
theorem C10_symlink_error_slots_witness :
    (make_symlink "../dev-zram0.swap" ["a", "b"] conc_wLink).1
      = Except.error "Failed to create symlink at ../dev-zram0.swap (pointing to a/b): File exists (os error 17)" := by
  have h := C10_symlink_error_slots "../dev-zram0.swap" ["a", "b"] conc_wLink
    conc_wLink (Entry.file "x") (by decide) (by decide)
  rw [h]
  decide

/-! ### Claim C8 -/

/-- Claim C8: `make_service_template` writes the single file
`swap-create@.service` into the output directory; its text contains an
`ExecStart` line invoking the running executable's own path with
`--setup-device '%i'` and an `ExecStartPre=-modprobe zram` line; when the
environment cannot report the executable's path, the call fails with an
error and writes nothing (the world is unchanged). -/
theorem C8_service_template_spec (out : FsPath) (w : World) :
    (w.currentExe = none →
      make_service_template out w
        = (Except.error "Couldn\x27t get path to generator executable", w))
    ∧ (∀ exe u w', w.currentExe = some exe →
        make_service_template out w = (Except.ok u, w') →
        lookupPath w'.fs (templatePath out)
          = some (Entry.file (serviceTemplateText exe))
        ∧ (∀ q, q ≠ templatePath out → lookupPath w'.fs q = lookupPath w.fs q)
        ∧ (∃ s1 s2, serviceTemplateText exe
            = s1 ++ ("ExecStart=" ++ exe ++ " --setup-device \x27%i\x27\n") ++ s2)
        ∧ (∃ s3 s4, serviceTemplateText exe
            = s3 ++ "ExecStartPre=-modprobe zram\n" ++ s4)) := by
  constructor
  · intro h
    exact make_service_template_none out w h
  · intro exe u w' hexe h
    obtain ⟨exe', hexe', hw', _, _⟩ := make_service_template_ok out w u w' h
    rw [hexe] at hexe'
    have hee : exe' = exe := (Option.some.inj hexe').symm
    rw [hee] at hw'
    refine ⟨?_, ?_, ?_, ?_⟩
    · rw [hw']
      exact lookup_setPath_self _ _ _
    · intro q hq
      rw [hw']
      show lookupPath (setPath w.fs (templatePath out) _) q = _
      rw [lookup_setPath_ne _ _ _ _ hq]
    · refine ⟨"# Automatically generated by zram-generator\n\n[Unit]\nDescription=Create swap on /dev/%i\nWants=systemd-modules-load.service\nAfter=systemd-modules-load.service\nAfter=dev-%i.device\nDefaultDependencies=false\n\n[Service]\nType=oneshot\nRemainAfterExit=yes\n"
          ++ "ExecStartPre=-modprobe zram\n", "", ?_⟩
      simp only [serviceTemplateText, string_append_assoc,
        string_append_right_empty]
    · refine ⟨"# Automatically generated by zram-generator\n\n[Unit]\nDescription=Create swap on /dev/%i\nWants=systemd-modules-load.service\nAfter=systemd-modules-load.service\nAfter=dev-%i.device\nDefaultDependencies=false\n\n[Service]\nType=oneshot\nRemainAfterExit=yes\n",
          "ExecStart=" ++ exe ++ " --setup-device \x27%i\x27\n", ?_⟩
      simp only [serviceTemplateText, string_append_assoc]

set_option maxRecDepth 10000 in
/-- Witness for C8: at the concrete world the template file is written with
the concrete executable path, and the `none` branch errors on the world
with no executable path. -/
theorem C8_service_template_spec_witness :
    make_service_template conc_out { conc_w0 with currentExe := none }
      = (Except.error "Couldn\x27t get path to generator executable",
          { conc_w0 with currentExe := none })
    ∧ lookupPath (make_service_template conc_out conc_w0).2.fs
        (templatePath conc_out)
      = some (Entry.file (serviceTemplateText
          "/usr/lib/systemd/system-generators/zram-generator")) := by
  constructor
  · exact (C8_service_template_spec conc_out
      { conc_w0 with currentExe := none }).1 rfl
  · exact ((C8_service_template_spec conc_out conc_w0).2
      "/usr/lib/systemd/system-generators/zram-generator" ()
      (make_service_template conc_out conc_w0).2 rfl (by decide)).1

/-! ### Claim C2 -/

/-- Claim C2: a successful `handle_device` returns `true` and writes
exactly two artifacts: the swap unit at `<out>/dev-<n>.swap` whose text
contains `What=/dev/<n>`, `Priority=100` and the `Requires=`/`After=` pair
on `swap-create@<n>.service`, and the symlink at
`<out>/swap.target.wants/dev-<n>.swap` whose stored target text is exactly
`../dev-<n>.swap`; any other path that gains an entry is a directory. -/
theorem C2_handle_device_artifacts (out : FsPath) (d : Device) (w : World)
    (b : Bool) (w' : World) (h : handle_device out d w = (Except.ok b, w')) :
    b = true
    ∧ lookupPath w'.fs (swapUnitPath out d.name)
        = some (Entry.file (swapUnitText d.name))
    ∧ lookupPath w'.fs (symlinkFsPath out d.name)
        = some (Entry.symlinkEntry ("../" ++ devSwapName d.name))
    ∧ (∃ s1 s2, swapUnitText d.name
        = s1 ++ ("What=/dev/" ++ d.name ++ "\n") ++ s2)
    ∧ (∃ s3 s4, swapUnitText d.name = s3 ++ "Priority=100\n" ++ s4)
    ∧ (∃ s5 s6, swapUnitText d.name
        = s5 ++ ("Requires=swap-create@" ++ d.name
            ++ ".service\nAfter=swap-create@" ++ d.name ++ ".service\n") ++ s6)
    ∧ (∀ q e, lookupPath w.fs q = none → lookupPath w'.fs q = some e →
        q = swapUnitPath out d.name ∨ q = symlinkFsPath out d.name
          ∨ e = Entry.dir) := by
  obtain ⟨hb, h1, h2, _, _⟩ := handle_device_ok out d w b w' h
  refine ⟨hb, h1, h2, ?_, ?_, ?_, ?_⟩
  · refine ⟨"# Automatically generated by zram-generator\n\n[Unit]\nDescription=Compressed swap on /dev/"
        ++ d.name ++ "\n" ++ "Requires=swap-create@" ++ d.name
        ++ ".service\nAfter=swap-create@" ++ d.name ++ ".service\n"
        ++ "\n[Swap]\n", "Priority=100\n", ?_⟩
    simp only [swapUnitText, string_append_assoc]
  · refine ⟨"# Automatically generated by zram-generator\n\n[Unit]\nDescription=Compressed swap on /dev/"
        ++ d.name ++ "\n" ++ "Requires=swap-create@" ++ d.name
        ++ ".service\nAfter=swap-create@" ++ d.name ++ ".service\n"
        ++ "\n[Swap]\n" ++ "What=/dev/" ++ d.name ++ "\n", "", ?_⟩
    simp only [swapUnitText, string_append_assoc, string_append_right_empty]
  · refine ⟨"# Automatically generated by zram-generator\n\n[Unit]\nDescription=Compressed swap on /dev/"
        ++ d.name ++ "\n",
        "\n[Swap]\n" ++ "What=/dev/" ++ d.name ++ "\n" ++ "Priority=100\n", ?_⟩
    simp only [swapUnitText, string_append_assoc]
  · intro q e hn hs
    rcases handle_device_back out d w _ w' h q e hs with h1' | h1' | ⟨hq, _⟩ | ⟨hq, _⟩
    · rw [hn] at h1'
      exact Option.noConfusion h1'
    · exact Or.inr (Or.inr h1')
    · exact Or.inl hq
    · exact Or.inr (Or.inl hq)

set_option maxRecDepth 10000 in
/-- Witness for C2 at the concrete `zram0` device. -/
theorem C2_handle_device_artifacts_witness :
    lookupPath (handle_device conc_out ⟨"zram0", 2147483648⟩ conc_w0).2.fs
        (swapUnitPath conc_out "zram0") = some (Entry.file (swapUnitText "zram0"))
    ∧ lookupPath (handle_device conc_out ⟨"zram0", 2147483648⟩ conc_w0).2.fs
        (symlinkFsPath conc_out "zram0")
      = some (Entry.symlinkEntry ("../" ++ devSwapName "zram0")) := by
  have h := C2_handle_device_artifacts conc_out ⟨"zram0", 2147483648⟩ conc_w0
    true (handle_device conc_out ⟨"zram0", 2147483648⟩ conc_w0).2 (by decide)
  exact ⟨h.2.1, h.2.2.1⟩

/-! ### Claim C4 -/

theorem createDirAllGo_blocked (comps : List String) : ∀ (w : World)
    (done : FsPath) (s : String) (r : Except String Unit) (w' : World),
    comps ≠ [] → lookupPath w.fs (done ++ comps) = some (Entry.file s) →
    createDirAllGo w done comps = (r, w') → resultIsOk r = false := by
  induction comps with
  | nil => intro _ _ _ _ _ hne _ _; exact absurd rfl hne
  | cons c rest ih =>
      intro w done s r w' _ hblock h
      unfold createDirAllGo at h
      cases hrest : rest with
      | nil =>
          subst hrest
          have hthis : lookupPath w.fs (done ++ [c]) = some (Entry.file s) :=
            hblock
          rw [hthis] at h
          simp only [Prod.mk.injEq] at h
          rw [← h.1]
          rfl
      | cons c2 rest2 =>
          split at h
          next hdir =>
              refine ih _ _ s r w' (by rw [hrest]; exact List.cons_ne_nil _ _) ?_ h
              rw [show (done ++ [c]) ++ rest = done ++ (c :: rest) by simp]
              exact hblock
          next hother =>
              simp only [Prod.mk.injEq] at h
              rw [← h.1]
              rfl
          next hnone =>
              refine ih _ _ s r w' (by rw [hrest]; exact List.cons_ne_nil _ _) ?_ h
              rw [show (done ++ [c]) ++ rest = done ++ (c :: rest) by simp]
              show lookupPath (setPath w.fs (done ++ [c]) Entry.dir)
                (done ++ (c :: rest)) = some (Entry.file s)
              rw [lookup_setPath_ne]
              · exact hblock
              · refine path_ne_of_length_ne _ _ ?_
                simp [hrest]

theorem handle_device_blocked (out : FsPath) (d : Device) (w : World)
    (s : String)
    (hblock : lookupPath w.fs (wantsDirPath out) = some (Entry.file s))
    (b : Bool) (w' : World) (h : handle_device out d w = (Except.ok b, w')) :
    False := by
  obtain ⟨_, _, _, hdirs, _⟩ := handle_device_ok out d w b w' h
  have hlen : 0 < (wantsDirPath out).length := by
    simp [wantsDirPath]
  have hdir : lookupPath w'.fs (wantsDirPath out) = some Entry.dir := by
    have := hdirs ((wantsDirPath out).length - 1) (by omega)
    rw [show (wantsDirPath out).length - 1 + 1 = (wantsDirPath out).length by omega,
      List.take_length] at this
    exact this
  rcases handle_device_lookup out d w _ w' h (wantsDirPath out) _ hblock
      with h1 | ⟨hq, _, _, _⟩
  · rw [hdir] at h1
    exact Entry.noConfusion (Option.some.inj h1)
  · exact absurd (snoc_inj out _ _ hq).symm (devSwapName_ne_wants d.name)

theorem handleDevices_blocked (out : FsPath) (devs : List Device) (w : World)
    (s : String) (d0 : Device) (rest : List Device) (hdevs : devs = d0 :: rest)
    (hblock : lookupPath w.fs (wantsDirPath out) = some (Entry.file s))
    (acc : Bool) (r : Except String Bool) (w' : World)
    (h : handleDevices out devs acc w = (r, w')) : resultIsOk r = false := by
  subst hdevs
  simp only [handleDevices] at h
  rcases bindE_cases _ _ _ _ h with ⟨b, w1, hm, hf⟩ | ⟨e, hm, hr⟩
  · exact absurd hm (fun hm => handle_device_blocked out d0 w s hblock b w1 hm)
  · rw [hr]
    rfl

/-- Claim C4: if, for any device, creation of the symlink's parent
directory fails, the whole `run_generator` call returns an error and the
module-autoload file is not written, even when earlier devices succeeded.
Part 1: any failure of the device loop (in particular a `make_parent`
failure at any position, after any number of successful devices) becomes
the result of `run_generator`, and the module-autoload file is present
afterwards only if it was already present before.  Part 2: the claim's
concrete failure mode — the `swap.target.wants` component already exists
as a regular file — makes the whole run fail. -/
theorem C4_parent_failure_aborts_run (root : FsPath) (devs : List Device)
    (out : FsPath) (w : World) (c : Nat)
    (hne : devs ≠ []) (hp : w.probe = ProbeOutcome.exited c) (hc : c ≠ 0) :
    (∀ e w2, handleDevices out devs false
        { w with probeCalls := w.probeCalls + 1 } = (Except.error e, w2) →
      run_generator root devs out w = (Except.error e, w2)
      ∧ (lookupPath w2.fs (modulesLoadPath root) = some (Entry.file "zram\n")
          → lookupPath w.fs (modulesLoadPath root) = some (Entry.file "zram\n")))
    ∧ (∀ s, lookupPath w.fs (wantsDirPath out) = some (Entry.file s) →
        resultIsOk (run_generator root devs out w).1 = false) := by
  obtain ⟨d, rest, rfl⟩ : ∃ d rest, devs = d :: rest := by
    cases devs with
    | nil => exact absurd rfl hne
    | cons d rest => exact ⟨d, rest, rfl⟩
  constructor
  · intro e w2 hloop
    constructor
    · rw [run_generator_eq_loop root d rest out w c hp hc]
      rw [bindE_of_err _ _ _ _ hloop]
    · intro hmod
      rcases handleDevices_back out (d :: rest) _ _ _ _ hloop
          (modulesLoadPath root) _ hmod with h1 | h1 | ⟨d', _, h1 | h1⟩
      · exact h1
      · exact Entry.noConfusion h1
      · exact absurd (Entry.file.inj h1.2).symm
          (swapUnitText_ne_zramLine d'.name)
      · exact Entry.noConfusion h1.2
  · intro s hblock
    rw [run_generator_eq_loop root d rest out w c hp hc]
    rcases hloop : handleDevices out (d :: rest) false
        { w with probeCalls := w.probeCalls + 1 } with ⟨r2, w2⟩
    have hr2 : resultIsOk r2 = false :=
      handleDevices_blocked out (d :: rest)
        { w with probeCalls := w.probeCalls + 1 } s d rest rfl hblock
        false r2 w2 hloop
    cases r2 with
    | ok b => simp [resultIsOk] at hr2
    | error e => rfl

/-- A world in which the `swap.target.wants` position inside the output
directory is occupied by a regular file. -/
def conc_wBlocked : World :=
  { fs := [(conc_out, Entry.dir),
           (conc_out ++ ["swap.target.wants"], Entry.file "junk")]
  , probe := ProbeOutcome.exited 1
  , probeCalls := 0
  , currentExe := some "/usr/lib/systemd/system-generators/zram-generator"
  , console := [] }

set_option maxRecDepth 10000 in
/-- Witness for C4: with `swap.target.wants` occupied by a file, the run
fails, and the concrete loop failure is returned by `run_generator`. -/
theorem C4_parent_failure_aborts_run_witness :
    resultIsOk (run_generator conc_root conc_devices conc_out conc_wBlocked).1
      = false
    ∧ run_generator conc_root conc_devices conc_out conc_wBlocked
      = (Except.error "File exists (os error 17)",
         (handleDevices conc_out conc_devices false
           { conc_wBlocked with
               probeCalls := conc_wBlocked.probeCalls + 1 }).2) := by
  have h := C4_parent_failure_aborts_run conc_root conc_devices conc_out
    conc_wBlocked 1 (by decide) rfl (by decide)
  refine ⟨h.2 "junk" (by decide), ?_⟩
  exact (h.1 "File exists (os error 17)"
    (handleDevices conc_out conc_devices false
      { conc_wBlocked with probeCalls := conc_wBlocked.probeCalls + 1 }).2
    (by decide)).1

/-! ### Claim C3 -/

/-- Claim C3: for a successful run, the module-autoload file
`<root>/run/modules-load.d/zram.conf` is written if and only if at least
one device unit was produced: on the early-exit paths (empty device list,
containerized) the filesystem is completely untouched, and on the path
that produced device units the file holds exactly the bytes `zram\n`
(regardless of how many devices were processed) while at least one device
unit file exists. -/
theorem C3_modules_load_iff (root : FsPath) (devs : List Device)
    (out : FsPath) (w : World) (w' : World)
    (h : run_generator root devs out w = (Except.ok (), w')) :
    (devs = [] → w'.fs = w.fs)
    ∧ (w.probe = ProbeOutcome.exited 0 → w'.fs = w.fs)
    ∧ (∀ c, w.probe = ProbeOutcome.exited c → c ≠ 0 → devs ≠ [] →
        lookupPath w'.fs (modulesLoadPath root) = some (Entry.file "zram\n")
        ∧ ∃ d, d ∈ devs ∧ lookupPath w'.fs (swapUnitPath out d.name)
            = some (Entry.file (swapUnitText d.name))) := by
  refine ⟨?_, ?_, ?_⟩
  · rintro rfl
    rw [run_generator_empty] at h
    simp only [Prod.mk.injEq] at h
    rw [← h.2]
    rfl
  · intro hp0
    cases devs with
    | nil =>
        rw [run_generator_empty] at h
        simp only [Prod.mk.injEq] at h
        rw [← h.2]
        rfl
    | cons d rest =>
        rw [run_generator_container root d rest out w hp0] at h
        simp only [Prod.mk.injEq] at h
        rw [← h.2]
        rfl
  · intro c hp hc hne
    obtain ⟨d, rest, rfl⟩ : ∃ d rest, devs = d :: rest := by
      cases devs with
      | nil => exact absurd rfl hne
      | cons d rest => exact ⟨d, rest, rfl⟩
    rw [run_generator_eq_loop root d rest out w c hp hc] at h
    rcases bindE_cases _ _ _ _ h with ⟨made, w2, hloop, hrest⟩ | ⟨e, _, hr⟩
    swap
    · exact Except.noConfusion hr
    · have hmade : made = true :=
        handleDevices_made out (d :: rest) _ made w2 hloop (by simp)
      rw [hmade, if_pos rfl] at hrest
      unfold finishRun at hrest
      rcases bindE_cases _ _ _ _ hrest with ⟨u3, w3, hmst, h4⟩ | ⟨e3, _, hr3⟩
      swap
      · exact Except.noConfusion hr3
      · rcases bindE_cases _ _ _ _ h4 with ⟨u4, w4, hmp, h5⟩ | ⟨e4, _, hr4⟩
        swap
        · exact Except.noConfusion hr4
        · rcases withContext_elim _ _ _ _ h5 with ⟨u5, _, hwf⟩ | ⟨e5, _, hr5⟩
          swap
          · exact Except.noConfusion hr5
          · obtain ⟨hw', _, _, _, _⟩ := writeFile_ok _ _ _ _ _ hwf
            constructor
            · rw [hw']
              exact lookup_setPath_self _ _ _
            · obtain ⟨d', hd', hl2⟩ := handleDevices_witness out (d :: rest)
                false _ made w2 hloop (by simp)
              refine ⟨d', hd', ?_⟩
              have hl3 : lookupPath w3.fs (swapUnitPath out d'.name)
                  = some (Entry.file (swapUnitText d'.name)) := by
                rcases make_service_template_lookup out w2 _ w3 hmst _ _ hl2
                    with h6 | ⟨hq, _, _, _⟩
                · exact h6
                · exact absurd (snoc_inj out _ _ hq)
                    (devSwapName_ne_template d'.name)
              have hl4 := make_parent_mono _ _ _ _ hmp _ _ hl3
              rw [hw']
              show lookupPath (setPath w4.fs (modulesLoadPath root)
                (Entry.file "zram\n")) _ = _
              rw [lookup_setPath_ne]
              · exact hl4
              · rw [show modulesLoadPath root
                    = (root ++ ["run", "modules-load.d"]) ++ ["zram.conf"]
                    by simp [modulesLoadPath]]
                exact path_ne_of_last_ne out (root ++ ["run", "modules-load.d"])
                  _ _ (devSwapName_ne_zram d'.name)

set_option maxRecDepth 10000 in
/-- Witness for C3: the concrete successful run writes the module-autoload
file with exactly `zram\n`, having produced the `zram0` unit. -/
theorem C3_modules_load_iff_witness :
    lookupPath (run_generator conc_root conc_devices conc_out conc_w0).2.fs
        (modulesLoadPath conc_root) = some (Entry.file "zram\n")
    ∧ ∃ d, d ∈ conc_devices
        ∧ lookupPath (run_generator conc_root conc_devices conc_out conc_w0).2.fs
            (swapUnitPath conc_out d.name)
          = some (Entry.file (swapUnitText d.name)) :=
  (C3_modules_load_iff conc_root conc_devices conc_out conc_w0
      (run_generator conc_root conc_devices conc_out conc_w0).2 (by decide)).2.2
    1 rfl (by decide) (by decide)

/-! ### Claim C9 -/

theorem writeFile_console (w : World) (cs : List String) (p : FsPath)
    (c : String) :
    writeFile { w with console := cs } p c
      = ((writeFile w p c).1, { (writeFile w p c).2 with console := cs }) := by
  obtain ⟨fs0, pr0, pc0, ex0, cs0⟩ := w
  simp only [writeFile]
  cases hp : parentOf p with
  | none => rfl
  | some par =>
      by_cases hd : isDirAt fs0 par = true
      · simp only [hd, if_true]
        cases hl : lookupPath fs0 p with
        | none => rfl
        | some e => cases e <;> rfl
      · simp only [hd, if_false]
        rfl

theorem symlinkOsCall_console (w : World) (cs : List String) (dst : String)
    (src : FsPath) :
    symlinkOsCall { w with console := cs } dst src
      = ((symlinkOsCall w dst src).1,
         { (symlinkOsCall w dst src).2 with console := cs }) := by
  obtain ⟨fs0, pr0, pc0, ex0, cs0⟩ := w
  simp only [symlinkOsCall]
  cases hl : lookupPath fs0 src with
  | some e => rfl
  | none =>
      cases hp : parentOf src with
      | none => rfl
      | some par =>
          by_cases hd : isDirAt fs0 par = true
          · simp only [hd, if_true]
          · simp only [hd, if_false]
            rfl

theorem createDirAllGo_console (comps : List String) : ∀ (w : World)
    (cs : List String) (done : FsPath),
    createDirAllGo { w with console := cs } done comps
      = ((createDirAllGo w done comps).1,
         { (createDirAllGo w done comps).2 with console := cs }) := by
  induction comps with
  | nil => intro w cs done; rfl
  | cons c rest ih =>
      intro w cs done
      obtain ⟨fs0, pr0, pc0, ex0, cs0⟩ := w
      simp only [createDirAllGo]
      cases hl : lookupPath fs0 (done ++ [c]) with
      | some e =>
          cases e with
          | dir => exact ih ⟨fs0, pr0, pc0, ex0, cs0⟩ cs (done ++ [c])
          | file s => rfl
          | symlinkEntry t => rfl
      | none =>
          exact ih ⟨setPath fs0 (done ++ [c]) Entry.dir, pr0, pc0, ex0, cs0⟩
            cs (done ++ [c])

theorem make_parent_console (of : FsPath) (w : World) (cs : List String) :
    make_parent of { w with console := cs }
      = ((make_parent of w).1, { (make_parent of w).2 with console := cs }) := by
  unfold make_parent
  cases hp : parentOf of with
  | none => rfl
  | some par => exact createDirAllGo_console par w cs []

theorem make_symlink_console (dst : String) (src : FsPath) (w : World)
    (cs : List String) :
    make_symlink dst src { w with console := cs }
      = ((make_symlink dst src w).1,
         { (make_symlink dst src w).2 with console := cs }) := by
  unfold make_symlink
  rw [make_parent_console src w cs]
  rcases hm : make_parent src w with ⟨r1, w1⟩
  cases r1 with
  | error e => rfl
  | ok a =>
      simp only [bindE]
      rw [symlinkOsCall_console w1 cs dst src]
      rcases hs : symlinkOsCall w1 dst src with ⟨r2, w2⟩
      cases r2 with
      | error e => rfl
      | ok b => rfl

theorem post_log_console (out : FsPath) (n : String) (w : World)
    (cs : List String) :
    (bindE (withContext (writeFile { w with console := cs }
          (out ++ ["dev-" ++ n ++ ".swap"]) (swapUnitText n))
        ("Failed to write a swap service into "
          ++ display (out ++ ["dev-" ++ n ++ ".swap"])))
      (fun _ w1 => bindE (make_symlink ("../" ++ ("dev-" ++ n ++ ".swap"))
          (out ++ ["swap.target.wants", "dev-" ++ n ++ ".swap"]) w1)
        (fun _ w2 => (Except.ok true, w2)))).1
      = (bindE (withContext (writeFile w
            (out ++ ["dev-" ++ n ++ ".swap"]) (swapUnitText n))
          ("Failed to write a swap service into "
            ++ display (out ++ ["dev-" ++ n ++ ".swap"])))
        (fun _ w1 => bindE (make_symlink ("../" ++ ("dev-" ++ n ++ ".swap"))
            (out ++ ["swap.target.wants", "dev-" ++ n ++ ".swap"]) w1)
          (fun _ w2 => (Except.ok true, w2)))).1
    ∧ (bindE (withContext (writeFile { w with console := cs }
          (out ++ ["dev-" ++ n ++ ".swap"]) (swapUnitText n))
        ("Failed to write a swap service into "
          ++ display (out ++ ["dev-" ++ n ++ ".swap"])))
      (fun _ w1 => bindE (make_symlink ("../" ++ ("dev-" ++ n ++ ".swap"))
          (out ++ ["swap.target.wants", "dev-" ++ n ++ ".swap"]) w1)
        (fun _ w2 => (Except.ok true, w2)))).2.fs
      = (bindE (withContext (writeFile w
            (out ++ ["dev-" ++ n ++ ".swap"]) (swapUnitText n))
          ("Failed to write a swap service into "
            ++ display (out ++ ["dev-" ++ n ++ ".swap"])))
        (fun _ w1 => bindE (make_symlink ("../" ++ ("dev-" ++ n ++ ".swap"))
            (out ++ ["swap.target.wants", "dev-" ++ n ++ ".swap"]) w1)
          (fun _ w2 => (Except.ok true, w2)))).2.fs := by
  rw [writeFile_console w cs (out ++ ["dev-" ++ n ++ ".swap"]) (swapUnitText n)]
  rcases hwf : writeFile w (out ++ ["dev-" ++ n ++ ".swap"]) (swapUnitText n)
    with ⟨r1, w1⟩
  cases r1 with
  | error e => exact ⟨rfl, rfl⟩
  | ok a =>
      dsimp only
      simp only [withContext, bindE]
      rw [make_symlink_console ("../" ++ ("dev-" ++ n ++ ".swap"))
        (out ++ ["swap.target.wants", "dev-" ++ n ++ ".swap"]) w1 cs]
      rcases hms : make_symlink ("../" ++ ("dev-" ++ n ++ ".swap"))
          (out ++ ["swap.target.wants", "dev-" ++ n ++ ".swap"]) w1
          with ⟨r2, w2⟩
      cases r2 with
      | error e => exact ⟨rfl, rfl⟩
      | ok b => exact ⟨rfl, rfl⟩

/-- Claim C9: two device descriptors with the same name but different
disksizes produce the same result and byte-identical filesystem artifacts
from `handle_device`; the disksize reaches only the console log line. -/
theorem C9_disksize_only_logging (out : FsPath) (d1 d2 : Device) (w : World)
    (hname : d1.name = d2.name) :
    (handle_device out d1 w).1 = (handle_device out d2 w).1
    ∧ (handle_device out d1 w).2.fs = (handle_device out d2 w).2.fs := by
  obtain ⟨n1, s1⟩ := d1
  obtain ⟨n2, s2⟩ := d2
  have hn : n1 = n2 := hname
  subst hn
  simp only [handle_device]
  have h2 := post_log_console out n1
    (logLine w ("Creating " ++ ("dev-" ++ n1 ++ ".swap") ++ " for /dev/"
      ++ n1 ++ " (" ++ toString (s1 / 1024 / 1024) ++ "MB)"))
    (w.console ++ ["Creating " ++ ("dev-" ++ n1 ++ ".swap") ++ " for /dev/"
      ++ n1 ++ " (" ++ toString (s2 / 1024 / 1024) ++ "MB)"])
  exact ⟨h2.1.symm, h2.2.symm⟩

set_option maxRecDepth 10000 in
/-- Witness for C9: same name `zram0`, disksizes 2147483648 and 1234. -/
theorem C9_disksize_only_logging_witness :
    (handle_device conc_out ⟨"zram0", 2147483648⟩ conc_w0).1
      = (handle_device conc_out ⟨"zram0", 1234⟩ conc_w0).1
    ∧ (handle_device conc_out ⟨"zram0", 2147483648⟩ conc_w0).2.fs
      = (handle_device conc_out ⟨"zram0", 1234⟩ conc_w0).2.fs :=
  C9_disksize_only_logging conc_out ⟨"zram0", 2147483648⟩ ⟨"zram0", 1234⟩
    conc_w0 rfl

/-! ### Claim C1 -/

theorem make_parent_of (p par : FsPath) (w : World)
    (h : parentOf p = some par) : make_parent p w = createDirAll w par := by
  unfold make_parent
  rw [h]

theorem parentOf_append2 (p : FsPath) (a b : String) :
    parentOf (p ++ [a, b]) = some (p ++ [a]) := by
  rw [show p ++ [a, b] = (p ++ [a]) ++ [b] by simp]
  exact parentOf_concat _ _

theorem isDirAt_of_lookup (fs : FsMap) (p : FsPath)
    (h : lookupPath fs p = some Entry.dir) : isDirAt fs p = true := by
  simp only [isDirAt, decide_eq_true_eq]
  exact Or.inr h

theorem isDirAt_nil (fs : FsMap) : isDirAt fs [] = true := by
  simp [isDirAt]

theorem writeFile_overwrite_same (w : World) (p : FsPath) (c : String)
    (hl : lookupPath w.fs p = some (Entry.file c))
    (hd : isDirAt w.fs p.dropLast = true) (hne : p ≠ []) :
    writeFile w p c = (Except.ok (), w) := by
  obtain ⟨x, xs, rfl⟩ : ∃ x xs, p = x :: xs := by
    cases p with
    | nil => exact absurd rfl hne
    | cons x xs => exact ⟨x, xs, rfl⟩
  simp only [writeFile, parentOf]
  simp only [hd, if_true]
  rw [hl]
  rw [setPath_eq_of_lookup _ _ _ hl]

/-- The second run of `run_generator` on the world produced by a first
successful, device-producing run fails (the activation symlink already
exists), and the failed second run leaves the filesystem byte-identical
to the state after the first run. -/
theorem C1_amended_second_run_fails (root : FsPath) (devs : List Device)
    (out : FsPath) (w w1 : World) (c : Nat)
    (hp : w.probe = ProbeOutcome.exited c) (hc : c ≠ 0) (hne : devs ≠ [])
    (h1 : run_generator root devs out w = (Except.ok (), w1)) :
    resultIsOk (run_generator root devs out w1).1 = false
    ∧ (run_generator root devs out w1).2.fs = w1.fs := by
  obtain ⟨d, rest, rfl⟩ : ∃ d rest, devs = d :: rest := by
    cases devs with
    | nil => exact absurd rfl hne
    | cons d rest => exact ⟨d, rest, rfl⟩
  obtain ⟨fs1, pc1, cs1, hw1shape⟩ :=
    run_generator_shape root (d :: rest) out w _ w1 h1
  have hp1 : w1.probe = ProbeOutcome.exited c := by
    rw [hw1shape]
    exact hp
  rw [run_generator_eq_loop root d rest out w c hp hc] at h1
  rcases bindE_cases _ _ _ _ h1 with ⟨made, w2, hloop, hrest⟩ | ⟨e, _, hr⟩
  swap
  · exact Except.noConfusion hr
  have hmade : made = true :=
    handleDevices_made out (d :: rest) _ made w2 hloop (by simp)
  rw [hmade, if_pos rfl] at hrest
  unfold finishRun at hrest
  rcases bindE_cases _ _ _ _ hrest with ⟨u3, w3, hmst, h4⟩ | ⟨e3, _, hr3⟩
  swap
  · exact Except.noConfusion hr3
  rcases bindE_cases _ _ _ _ h4 with ⟨u4, w4, hmp, h5⟩ | ⟨e4, _, hr4⟩
  swap
  · exact Except.noConfusion hr4
  rcases withContext_elim _ _ _ _ h5 with ⟨u5, _, hwf⟩ | ⟨e5, _, hr5⟩
  swap
  · exact Except.noConfusion hr5
  obtain ⟨hw1eq, hnd_mod, _, _, _⟩ := writeFile_ok _ _ _ _ _ hwf
  have hloop' := hloop
  simp only [handleDevices] at hloop'
  rcases bindE_cases _ _ _ _ hloop' with ⟨b0, wA, hhd, hrest2⟩ | ⟨e0, _, hr0⟩
  swap
  · exact Except.noConfusion hr0
  obtain ⟨_, hswapA, hsymA, hdirsA, _⟩ := handle_device_ok _ _ _ _ _ hhd
  -- propagate the first device's artifacts through the rest of the loop
  have hswap2 : lookupPath w2.fs (swapUnitPath out d.name)
      = some (Entry.file (swapUnitText d.name)) := by
    rcases handleDevices_lookup out rest _ _ _ _ hrest2 _ _ hswapA
        with h6 | ⟨d', hd', hq, _, _, h6⟩
    · exact h6
    · have hnn : d.name = d'.name :=
        devSwapName_inj _ _ (snoc_inj out _ _ hq)
      rw [← hnn] at h6
      exact h6
  have hsym2 : lookupPath w2.fs (symlinkFsPath out d.name)
      = some (Entry.symlinkEntry ("../" ++ devSwapName d.name)) := by
    rcases handleDevices_lookup out rest _ _ _ _ hrest2 _ _ hsymA
        with h6 | ⟨d', _, _, _, hns, _⟩
    · exact h6
    · exact absurd rfl (hns ("../" ++ devSwapName d.name))
  have hdirs2 : ∀ k, k < (wantsDirPath out).length →
      lookupPath w2.fs ((wantsDirPath out).take (k + 1)) = some Entry.dir := by
    intro k hk
    rcases handleDevices_lookup out rest _ _ _ _ hrest2 _ _ (hdirsA k hk)
        with h6 | ⟨d', _, _, hnd, _, _⟩
    · exact h6
    · exact absurd rfl hnd
  -- propagate through make_service_template
  have hswap3 : lookupPath w3.fs (swapUnitPath out d.name)
      = some (Entry.file (swapUnitText d.name)) := by
    rcases make_service_template_lookup out w2 _ w3 hmst _ _ hswap2
        with h6 | ⟨hq, _, _, _⟩
    · exact h6
    · exact absurd (snoc_inj out _ _ hq) (devSwapName_ne_template d.name)
  have hsym3 : lookupPath w3.fs (symlinkFsPath out d.name)
      = some (Entry.symlinkEntry ("../" ++ devSwapName d.name)) := by
    rcases make_service_template_lookup out w2 _ w3 hmst _ _ hsym2
        with h6 | ⟨_, _, hns, _⟩
    · exact h6
    · exact absurd rfl (hns ("../" ++ devSwapName d.name))
  have hdirs3 : ∀ k, k < (wantsDirPath out).length →
      lookupPath w3.fs ((wantsDirPath out).take (k + 1)) = some Entry.dir := by
    intro k hk
    rcases make_service_template_lookup out w2 _ w3 hmst _ _ (hdirs2 k hk)
        with h6 | ⟨_, hnd, _, _⟩
    · exact h6
    · exact absurd rfl hnd
  -- propagate through make_parent of the module path
  have hswap4 := make_parent_mono _ _ _ _ hmp _ _ hswap3
  have hsym4 := make_parent_mono _ _ _ _ hmp _ _ hsym3
  have hdirs4 : ∀ k, k < (wantsDirPath out).length →
      lookupPath w4.fs ((wantsDirPath out).take (k + 1)) = some Entry.dir :=
    fun k hk => make_parent_mono _ _ _ _ hmp _ _ (hdirs3 k hk)
  -- propagate through the module-autoload write
  have hswap1 : lookupPath w1.fs (swapUnitPath out d.name)
      = some (Entry.file (swapUnitText d.name)) := by
    rw [hw1eq]
    show lookupPath (setPath w4.fs (modulesLoadPath root)
      (Entry.file "zram\n")) _ = _
    rw [lookup_setPath_ne]
    · exact hswap4
    · rw [show modulesLoadPath root
          = (root ++ ["run", "modules-load.d"]) ++ ["zram.conf"]
          by simp [modulesLoadPath]]
      exact path_ne_of_last_ne out (root ++ ["run", "modules-load.d"]) _ _
        (devSwapName_ne_zram d.name)
  have hsym1 : lookupPath w1.fs (symlinkFsPath out d.name)
      = some (Entry.symlinkEntry ("../" ++ devSwapName d.name)) := by
    rw [hw1eq]
    show lookupPath (setPath w4.fs (modulesLoadPath root)
      (Entry.file "zram\n")) _ = _
    rw [lookup_setPath_ne]
    · exact hsym4
    · rw [show (symlinkFsPath out d.name : FsPath)
          = (out ++ ["swap.target.wants"]) ++ [devSwapName d.name]
          by simp [symlinkFsPath]]
      rw [show modulesLoadPath root
          = (root ++ ["run", "modules-load.d"]) ++ ["zram.conf"]
          by simp [modulesLoadPath]]
      exact path_ne_of_last_ne (out ++ ["swap.target.wants"])
        (root ++ ["run", "modules-load.d"]) _ _ (devSwapName_ne_zram d.name)
  have hdirs1 : ∀ k, k < (wantsDirPath out).length →
      lookupPath w1.fs ((wantsDirPath out).take (k + 1)) = some Entry.dir := by
    intro k hk
    rw [hw1eq]
    show lookupPath (setPath w4.fs (modulesLoadPath root)
      (Entry.file "zram\n")) _ = _
    rw [lookup_setPath_ne]
    · exact hdirs4 k hk
    · intro hqe
      exact hnd_mod (by rw [← hqe]; exact hdirs4 k hk)
  -- the output directory itself is a directory (or the root)
  have hdirOut : isDirAt w1.fs out = true := by
    cases hout : out with
    | nil => exact isDirAt_nil _
    | cons o os =>
        rw [hout] at hdirs1
        refine isDirAt_of_lookup _ _ ?_
        have hk : (o :: os).length - 1 < (wantsDirPath (o :: os)).length := by
          simp [wantsDirPath]
          omega
        have hthis := hdirs1 ((o :: os).length - 1) hk
        rw [show (o :: os).length - 1 + 1 = (o :: os).length by simp] at hthis
        rw [show (wantsDirPath (o :: os)).take ((o :: os).length)
            = o :: os from List.take_left (o :: os) ["swap.target.wants"]] at hthis
        exact hthis
  -- second run: the rewrite of the swap unit is a no-op ...
  have h_w : writeFile (logLine { w1 with probeCalls := w1.probeCalls + 1 }
        ("Creating " ++ ("dev-" ++ d.name ++ ".swap") ++ " for /dev/"
          ++ d.name ++ " (" ++ toString (d.disksize / 1024 / 1024) ++ "MB)"))
      (out ++ ["dev-" ++ d.name ++ ".swap"]) (swapUnitText d.name)
      = (Except.ok (), logLine { w1 with probeCalls := w1.probeCalls + 1 }
        ("Creating " ++ ("dev-" ++ d.name ++ ".swap") ++ " for /dev/"
          ++ d.name ++ " (" ++ toString (d.disksize / 1024 / 1024) ++ "MB)")) := by
    refine writeFile_overwrite_same _ _ _ ?_ ?_ (by simp)
    · exact hswap1
    · rw [show (out ++ ["dev-" ++ d.name ++ ".swap"] : FsPath).dropLast = out
          from List.dropLast_concat]
      exact hdirOut
  -- ... the parent of the symlink already exists ...
  have h_mp : make_parent (out ++ ["swap.target.wants",
        "dev-" ++ d.name ++ ".swap"])
      (logLine { w1 with probeCalls := w1.probeCalls + 1 }
        ("Creating " ++ ("dev-" ++ d.name ++ ".swap") ++ " for /dev/"
          ++ d.name ++ " (" ++ toString (d.disksize / 1024 / 1024) ++ "MB)"))
      = (Except.ok (), logLine { w1 with probeCalls := w1.probeCalls + 1 }
        ("Creating " ++ ("dev-" ++ d.name ++ ".swap") ++ " for /dev/"
          ++ d.name ++ " (" ++ toString (d.disksize / 1024 / 1024) ++ "MB)")) := by
    rw [make_parent_of _ (out ++ ["swap.target.wants"]) _
      (parentOf_append2 out _ _)]
    exact createDirAll_noop _ _ (fun k hk => hdirs1 k hk)
  -- ... and the symlink creation itself fails with EEXIST.
  have h_ms : make_symlink ("../" ++ ("dev-" ++ d.name ++ ".swap"))
      (out ++ ["swap.target.wants", "dev-" ++ d.name ++ ".swap"])
      (logLine { w1 with probeCalls := w1.probeCalls + 1 }
        ("Creating " ++ ("dev-" ++ d.name ++ ".swap") ++ " for /dev/"
          ++ d.name ++ " (" ++ toString (d.disksize / 1024 / 1024) ++ "MB)"))
      = (Except.error ("Failed to create symlink at "
            ++ ("../" ++ ("dev-" ++ d.name ++ ".swap")) ++ " (pointing to "
            ++ display (out ++ ["swap.target.wants",
                "dev-" ++ d.name ++ ".swap"]) ++ ")" ++ ": "
            ++ "File exists (os error 17)"),
          logLine { w1 with probeCalls := w1.probeCalls + 1 }
          ("Creating " ++ ("dev-" ++ d.name ++ ".swap") ++ " for /dev/"
            ++ d.name ++ " (" ++ toString (d.disksize / 1024 / 1024) ++ "MB)")) := by
    refine make_symlink_eexist _ _ _ _
      (Entry.symlinkEntry ("../" ++ devSwapName d.name)) h_mp ?_
    exact hsym1
  have h_hd : handle_device out d { w1 with probeCalls := w1.probeCalls + 1 }
      = (Except.error ("Failed to create symlink at "
            ++ ("../" ++ ("dev-" ++ d.name ++ ".swap")) ++ " (pointing to "
            ++ display (out ++ ["swap.target.wants",
                "dev-" ++ d.name ++ ".swap"]) ++ ")" ++ ": "
            ++ "File exists (os error 17)"),
          logLine { w1 with probeCalls := w1.probeCalls + 1 }
          ("Creating " ++ ("dev-" ++ d.name ++ ".swap") ++ " for /dev/"
            ++ d.name ++ " (" ++ toString (d.disksize / 1024 / 1024) ++ "MB)")) := by
    simp only [handle_device]
    rw [withContext_of_ok _ _ _ _ h_w]
    simp only [bindE]
    rw [h_ms]
  have h_loop2 : handleDevices out (d :: rest) false
      { w1 with probeCalls := w1.probeCalls + 1 }
      = (Except.error ("Failed to create symlink at "
            ++ ("../" ++ ("dev-" ++ d.name ++ ".swap")) ++ " (pointing to "
            ++ display (out ++ ["swap.target.wants",
                "dev-" ++ d.name ++ ".swap"]) ++ ")" ++ ": "
            ++ "File exists (os error 17)"),
          logLine { w1 with probeCalls := w1.probeCalls + 1 }
          ("Creating " ++ ("dev-" ++ d.name ++ ".swap") ++ " for /dev/"
            ++ d.name ++ " (" ++ toString (d.disksize / 1024 / 1024) ++ "MB)")) := by
    simp only [handleDevices]
    rw [h_hd]
    simp only [bindE]
  rw [run_generator_eq_loop root d rest out w1 c hp1 hc]
  rw [h_loop2]
  exact ⟨rfl, rfl⟩

set_option maxRecDepth 10000 in
/-- Counterexample to claim C1 as stated: at a concrete input the first
run succeeds (populating the output directory with its artifacts), but the
second run with identical inputs does not succeed — `make_symlink` treats
the already-existing activation symlink as a hard error. -/
theorem C1_counterexample_second_run_not_ok :
    resultIsOk (run_generator conc_root conc_devices conc_out conc_w0).1 = true
    ∧ resultIsOk (run_generator conc_root conc_devices conc_out
        (run_generator conc_root conc_devices conc_out conc_w0).2).1 = false := by
  constructor
  · decide
  · decide

set_option maxRecDepth 10000 in
/-- Witness for the amended C1 at the concrete scenario. -/
theorem C1_amended_second_run_fails_witness :
    resultIsOk (run_generator conc_root conc_devices conc_out
        (run_generator conc_root conc_devices conc_out conc_w0).2).1 = false
    ∧ (run_generator conc_root conc_devices conc_out
        (run_generator conc_root conc_devices conc_out conc_w0).2).2.fs
      = (run_generator conc_root conc_devices conc_out conc_w0).2.fs :=
  C1_amended_second_run_fails conc_root conc_devices conc_out conc_w0
    (run_generator conc_root conc_devices conc_out conc_w0).2 1 rfl
    (by decide) (by decide) (by decide)

end ZramGen
